import Mathlib

/-!
# gnso: the RPC gateway in front of the NSO RESTCONF controller

A shallow embedding of `main.go` (the five gRPC handlers of `nsoService`) and of
`integrations/nso_controller.go` (the RESTCONF client `NSORestconfController`).

Go strings are Lean strings: the program only concatenates them, compares them and hands
them to its libraries.  A Go function returning `(value, error)` returns a pair whose second
component is `none` for a nil error.  A nil pointer is `none`.

The libraries the program calls are collaborators of the embedding and are passed in as
records of functions: `net/http` (`Http`), `github.com/tidwall/gjson` (`Gjson`) and the
process environment (`World.TOKEN`).  Every call that leaves the program is recorded in a
trace of `Event`s, so that "no controller call is made" is a statement about that trace.
-/

namespace Gnso

/-! ## Errors and results -/

/-- The gRPC status codes the gateway uses (`google.golang.org/grpc/codes`). -/
inductive Code where
  | PermissionDenied
  deriving DecidableEq, Repr

/-- Go error values, by the call that creates them. -/
inductive GoError where
  /-- The value of `status.Errorf(code, msg)`. -/
  | status (code : Code) (msg : String)
  /-- The value of `errors.New(msg)`. -/
  | errorsNew (msg : String)
  /-- An error value handed back by `net/http` or `io/ioutil`. -/
  | library (msg : String)
  deriving DecidableEq, Repr

/-- A Go call either returns or panics; a panic in a handler is not recovered. -/
inductive Go (α : Type) where
  | ret (a : α)
  | panic (msg : String)
  deriving DecidableEq, Repr

/-- The run-time panic of a field access through a nil pointer. -/
def nilDereference : String :=
  "runtime error: invalid memory address or nil pointer dereference"

/-! ## Messages of package `pb` -/

namespace service

/-- Modelled from the spec: the generated message `pb.Request` (package `pb` is not among
the sources); it carries the authorization token every operation of §6 has. -/
structure Request where
  Token : String
  deriving DecidableEq, Repr

/-- Modelled from the spec: the generated message `pb.Response`, the response envelope with
its `result` text (§6). -/
structure Response where
  Result : String
  deriving DecidableEq, Repr

/-- Modelled from the spec: the generated message `pb.DeviceType`, the discriminated
device type `{kind, nedId}` of §3. -/
structure DeviceType where
  NedId : String
  NedType : String
  deriving DecidableEq, Repr

/-- Modelled from the spec: the generated message `pb.Device`, the device record of §3;
`Type_` is the pointer field `Type`, `none` when nil. -/
structure Device where
  Name : String
  Address : String
  Authgroup : String
  Type_ : Option DeviceType
  deriving DecidableEq, Repr

/-- Modelled from the spec: the generated message `pb.GetDevicesRequest`.  `Request` is the
embedded token message; `main.go` passes `req.Request` to the `*service.Request` parameter
of `isTokenValid`, so it is a pointer, `none` when the client left the message out. -/
structure GetDevicesRequest where
  Request : Option Request
  deriving DecidableEq, Repr

/-- Modelled from the spec: the generated message `pb.GetDevicesResponse`. -/
structure GetDevicesResponse where
  Devices : List Device
  deriving DecidableEq, Repr

/-- Modelled from the spec: the generated message `pb.GetConfigRequest` (§6: token, path,
options). -/
structure GetConfigRequest where
  Request : Option Request
  Path : String
  Options : String
  deriving DecidableEq, Repr

/-- Modelled from the spec: the generated message `pb.GetConfigResponse`. -/
structure GetConfigResponse where
  Response : Option Response
  deriving DecidableEq, Repr

/-- Modelled from the spec: the generated message `pb.EditConfigRequest` (§6: token, path,
options, operationType, jsonData). -/
structure EditConfigRequest where
  Request : Option Request
  Path : String
  Options : String
  OperationType : String
  JsonData : String
  deriving DecidableEq, Repr

/-- Modelled from the spec: the generated message `pb.EditConfigResponse`. -/
structure EditConfigResponse where
  Response : Option Response
  deriving DecidableEq, Repr

/-- Modelled from the spec: the generated message `pb.QueryRequest` (§6: token, jsonQuery). -/
structure QueryRequest where
  Request : Option Request
  JsonQuery : String
  deriving DecidableEq, Repr

/-- Modelled from the spec: the generated message `pb.QueryResponse`. -/
structure QueryResponse where
  Response : Option Response
  deriving DecidableEq, Repr

/-- Modelled from the spec: the generated message `pb.ExecOperationRequest` (§6: token,
path, options, jsonData). -/
structure ExecOperationRequest where
  Request : Option Request
  Path : String
  Options : String
  JsonData : String
  deriving DecidableEq, Repr

/-- Modelled from the spec: the generated message `pb.ExecOperationResponse`. -/
structure ExecOperationResponse where
  Response : Option Response
  deriving DecidableEq, Repr

/-- Modelled from the spec: the generated getter `GetPath` of `pb.GetConfigRequest`; on the
non-nil request a handler receives it is the field. -/
def GetConfigRequest.GetPath (x : GetConfigRequest) : String := x.Path

/-- Modelled from the spec: the generated getter `GetOptions` of `pb.GetConfigRequest`. -/
def GetConfigRequest.GetOptions (x : GetConfigRequest) : String := x.Options

/-- Modelled from the spec: the generated getter `GetPath` of `pb.EditConfigRequest`. -/
def EditConfigRequest.GetPath (x : EditConfigRequest) : String := x.Path

/-- Modelled from the spec: the generated getter `GetOptions` of `pb.EditConfigRequest`. -/
def EditConfigRequest.GetOptions (x : EditConfigRequest) : String := x.Options

/-- Modelled from the spec: the generated getter `GetOperationType` of
`pb.EditConfigRequest`. -/
def EditConfigRequest.GetOperationType (x : EditConfigRequest) : String := x.OperationType

/-- Modelled from the spec: the generated getter `GetJsonData` of `pb.EditConfigRequest`. -/
def EditConfigRequest.GetJsonData (x : EditConfigRequest) : String := x.JsonData

/-- Modelled from the spec: the generated getter `GetJsonQuery` of `pb.QueryRequest`. -/
def QueryRequest.GetJsonQuery (x : QueryRequest) : String := x.JsonQuery

/-- Modelled from the spec: the generated getter `GetPath` of `pb.ExecOperationRequest`. -/
def ExecOperationRequest.GetPath (x : ExecOperationRequest) : String := x.Path

/-- Modelled from the spec: the generated getter `GetOptions` of
`pb.ExecOperationRequest`. -/
def ExecOperationRequest.GetOptions (x : ExecOperationRequest) : String := x.Options

/-- Modelled from the spec: the generated getter `GetJsonData` of
`pb.ExecOperationRequest`. -/
def ExecOperationRequest.GetJsonData (x : ExecOperationRequest) : String := x.JsonData

end service

/-! ## Collaborators: `net/http`, `gjson`, the environment -/

/-- An `http.Request` as far as the program touches it. -/
structure HttpRequest where
  /-- The method as given to `http.NewRequest`; as in `http.Request`, the empty text of a
  client request stands for GET. -/
  Method : String
  /-- The URL text as given to `http.NewRequest`. -/
  URL : String
  /-- The request body; `none` for the nil reader of the two GET calls. -/
  Body : Option String
  /-- The header entries in the order `Header.Add` put them. -/
  Header : List (String × String)
  /-- The credentials given to `SetBasicAuth`. -/
  BasicAuth : Option (String × String)
  deriving DecidableEq, Repr

/-- An `http.Response` as far as the program reads it. -/
structure HttpResponse where
  /-- The status line text, `resp.Status`. -/
  Status : String
  StatusCode : Int
  /-- What `ioutil.ReadAll(resp.Body)` gives: the body text, or the text of a read error. -/
  Body : Except String String

/-- Package `net/http` as the controller client uses it. -/
structure Http where
  /-- The checks of `http.NewRequest(method, url, body)` on its arguments: the text of the
  error when it refuses them. -/
  refuses : String → String → Option String → Option String
  /-- The call `client.Do(req)`: the exchange with the controller, or the text of the
  transport error. -/
  Do : HttpRequest → Except String HttpResponse

/-- The call `http.NewRequest(method, url, body)`: an error when the arguments are refused,
else a new request with that method, that URL and that body, without headers. -/
def Http.NewRequest (h : Http) (method url : String) (body : Option String) :
    Except String HttpRequest :=
  match h.refuses method url body with
  | some err => .error err
  | none => .ok { Method := method, URL := url, Body := body, Header := [], BasicAuth := none }

namespace http

/-- The constant `http.MethodPatch`. -/
abbrev MethodPatch : String := "PATCH"
/-- The constant `http.MethodPut`. -/
abbrev MethodPut : String := "PUT"
/-- The constant `http.MethodPost`. -/
abbrev MethodPost : String := "POST"
/-- The constant `http.MethodDelete`. -/
abbrev MethodDelete : String := "DELETE"

end http

/-- Package `gjson` as the program uses it: `Get` and four methods of its `Result`. -/
structure Gjson where
  Result : Type
  /-- The call `gjson.Get(json, path)`. -/
  Get : String → String → Result
  /-- The field `Raw` of a result. -/
  Raw : Result → String
  /-- The method `Exists()`. -/
  Exists : Result → Bool
  /-- The method `String()`, which `fmt` also uses to print a result with `%s`. -/
  String : Result → String
  /-- The method `Array()`. -/
  Array : Result → List Result

/-- The receiver of the controller-client methods. -/
structure NSORestconfController where
  Url : String
  Username : String
  Password : String
  deriving DecidableEq, Repr

/-- Everything outside the program that a request handler depends on. -/
structure World where
  /-- The value of `os.Getenv("TOKEN")`. -/
  TOKEN : String
  /-- The package variable `nsoRestconfCtl`, filled in by `main`. -/
  nsoRestconfCtl : NSORestconfController
  http : Http
  gjson : Gjson

/-- A call of a controller-client method by a handler, with its arguments. -/
inductive ControllerCall where
  | GetDevices
  | GetConfig (purl : String)
  | EditConfig (purl payload httpMethod : String)
  | Query (payload : String)
  | ExecOperations (purl payload : String)
  deriving DecidableEq, Repr

/-- The calls that leave the program, in the order they happen. -/
inductive Event where
  /-- A handler called a method of `nsoRestconfCtl`. -/
  | controller (call : ControllerCall)
  /-- The client called `http.NewRequest(method, url, body)`. -/
  | newRequest (method url : String) (body : Option String)
  /-- The client called `client.Do(req)`. -/
  | clientDo (req : HttpRequest)
  deriving DecidableEq, Repr

/-- The `(string, error)` result of a controller-client method. -/
abbrev ClientResult : Type := String × Option GoError

/-! ## `integrations/nso_controller.go`: the controller client -/

namespace NSORestconfController

/-- The method `prepareRequest`: basic authentication and the two YANG-JSON headers. -/
def prepareRequest (r : NSORestconfController) (req : HttpRequest) : HttpRequest :=
  -- Add basic auth
  let req := { req with BasicAuth := some (r.Username, r.Password) }
  -- Add json headers
  let req := { req with Header := req.Header ++ [("Accept", "application/yang-data+json")] }
  let req := { req with Header := req.Header ++ [("Content-Type", "application/yang-data+json")] }
  req

/-- The method `makeRequest`: one exchange with the controller and the two error checks. -/
def makeRequest (w : World) (r : NSORestconfController) (req : HttpRequest) :
    ClientResult × List Event :=
  let req := prepareRequest r req
  -- Make request and check for errors
  (match w.http.Do req with
   | .error err => ("", some (.library err))
   | .ok resp =>
     -- Read response
     match resp.Body with
     | .error err => ("", some (.library err))
     | .ok data =>
       if resp.StatusCode < 200 ∨ resp.StatusCode > 299 then
         ("", some (.errorsNew ("Status " ++ resp.Status ++ " returned from NSO: " ++ data)))
       else
         -- this is only done to check if NSO returned error message
         let result := w.gjson.Get data "errors"
         -- If error key is found, raise error with message
         if w.gjson.Exists result then
           ("", some (.errorsNew ("Error returned from NSO: " ++ w.gjson.String result)))
         else
           -- All good, just return the string
           (data, none),
   [Event.clientDo req])

/-- The method `GetDevices`: the device list as JSON text. -/
def GetDevices (w : World) (r : NSORestconfController) : ClientResult × List Event :=
  -- Set restconf endpoint
  let restconfEndpoint :=
    "/data/tailf-ncs:devices/device?fields=address;name;device-type;authgroup&depth=2"
  match w.http.NewRequest "GET" (r.Url ++ restconfEndpoint) none with
  | .error err =>
    (("", some (.library err)), [Event.newRequest "GET" (r.Url ++ restconfEndpoint) none])
  | .ok req =>
    -- Execute request
    match makeRequest w r req with
    | ((_, some err), events) =>
      (("", some err), Event.newRequest "GET" (r.Url ++ restconfEndpoint) none :: events)
    -- All good, just return the string
    | ((data, none), events) =>
      ((data, none), Event.newRequest "GET" (r.Url ++ restconfEndpoint) none :: events)

/-- The method `GetConfig`: the JSON text found at the given path. -/
def GetConfig (w : World) (r : NSORestconfController) (purl : String) :
    ClientResult × List Event :=
  -- Set restconf endpoint
  let restconfEndpoint := "/data" ++ purl
  match w.http.NewRequest "GET" (r.Url ++ restconfEndpoint) none with
  | .error err =>
    (("", some (.library err)), [Event.newRequest "GET" (r.Url ++ restconfEndpoint) none])
  | .ok req =>
    -- Execute request
    match makeRequest w r req with
    | ((_, some err), events) =>
      (("", some err), Event.newRequest "GET" (r.Url ++ restconfEndpoint) none :: events)
    -- All good, just return the string
    | ((data, none), events) =>
      ((data, none), Event.newRequest "GET" (r.Url ++ restconfEndpoint) none :: events)

/-- The method `EditConfig`: a configuration change with the given path, payload and method. -/
def EditConfig (w : World) (r : NSORestconfController) (purl payload httpMethod : String) :
    ClientResult × List Event :=
  -- Set restconf endpoint
  let restconfEndpoint := "/data" ++ purl
  match w.http.NewRequest httpMethod (r.Url ++ restconfEndpoint) (some payload) with
  | .error err =>
    (("", some (.library err)), [Event.newRequest httpMethod (r.Url ++ restconfEndpoint) (some payload)])
  | .ok req =>
    -- Execute request
    match makeRequest w r req with
    | ((_, some err), events) =>
      (("", some err), Event.newRequest httpMethod (r.Url ++ restconfEndpoint) (some payload) :: events)
    -- All good, just return the string
    | ((data, none), events) =>
      ((data, none), Event.newRequest httpMethod (r.Url ++ restconfEndpoint) (some payload) :: events)

/-- The method `Query`: the answer to the query in the payload. -/
def Query (w : World) (r : NSORestconfController) (payload : String) :
    ClientResult × List Event :=
  -- Set restconf endpoint
  let restconfEndpoint := "/tailf/query"
  match w.http.NewRequest http.MethodPost (r.Url ++ restconfEndpoint) (some payload) with
  | .error err =>
    (("", some (.library err)), [Event.newRequest http.MethodPost (r.Url ++ restconfEndpoint) (some payload)])
  | .ok req =>
    -- Execute request
    match makeRequest w r req with
    | ((_, some err), events) =>
      (("", some err), Event.newRequest http.MethodPost (r.Url ++ restconfEndpoint) (some payload) :: events)
    -- All good, just return the string
    | ((data, none), events) =>
      ((data, none), Event.newRequest http.MethodPost (r.Url ++ restconfEndpoint) (some payload) :: events)

/-- The method `ExecOperations`: an action of the controller. -/
def ExecOperations (w : World) (r : NSORestconfController) (purl payload : String) :
    ClientResult × List Event :=
  -- Set restconf endpoint
  let restconfEndpoint := "/operations" ++ purl
  match w.http.NewRequest http.MethodPost (r.Url ++ restconfEndpoint) (some payload) with
  | .error err =>
    (("", some (.library err)), [Event.newRequest http.MethodPost (r.Url ++ restconfEndpoint) (some payload)])
  | .ok req =>
    -- Execute request
    match makeRequest w r req with
    | ((_, some err), events) =>
      (("", some err), Event.newRequest http.MethodPost (r.Url ++ restconfEndpoint) (some payload) :: events)
    -- All good, just return the string
    | ((data, none), events) =>
      ((data, none), Event.newRequest http.MethodPost (r.Url ++ restconfEndpoint) (some payload) :: events)

end NSORestconfController

/-! ## `main.go`: the handlers of `nsoService` -/

namespace nsoService

/-- The `(*Response, error)` result of a handler, or its panic, with the calls it made. -/
abbrev Handled (α : Type) : Type := Go (Option α × Option GoError) × List Event

/-- The method `isTokenValid`: `req.Token` is read through the pointer `req` only when a
token is configured, and reading through a nil pointer panics. -/
def isTokenValid (w : World) (req : Option service.Request) : Go Bool :=
  let token := w.TOKEN
  -- Only validate if token is different than null and empty
  if token != "" then
    match req with
    | some r => .ret (token == r.Token)
    | none => .panic nilDereference
  else
    .ret true

/-- The value of `status.Errorf(codes.PermissionDenied, "invalid token")`. -/
def invalidToken : GoError := .status .PermissionDenied "invalid token"

/-- The inner loop of `GetDevices` over the allowed types: the first one that exists under
`device-type` gives the device type and ends the loop. -/
def scanAllowedTypes (g : Gjson) (raw : String) : List String → Option service.DeviceType
  | [] => none
  | allowedType :: rest =>
    let deviceTypeJson := g.Get raw ("device-type." ++ allowedType)
    if g.Exists deviceTypeJson then
      some { NedId := g.String (g.Get raw ("device-type." ++ allowedType ++ ".ned-id")),
             NedType := allowedType }
    else
      scanAllowedTypes g raw rest

/-- The body of the outer loop of `GetDevices`: the record built from one array element. -/
def deviceOf (g : Gjson) (deviceJson : g.Result) : service.Device :=
  let device : service.Device :=
    { Name := g.String (g.Get (g.Raw deviceJson) "name"),
      Address := g.String (g.Get (g.Raw deviceJson) "address"),
      Authgroup := g.String (g.Get (g.Raw deviceJson) "authgroup"),
      Type_ := none }
  -- Supported (by this rpc call) types are cli, netconf or generic.
  { device with Type_ := scanAllowedTypes g (g.Raw deviceJson) ["cli", "netconf", "generic"] }

/-- The outer loop of `GetDevices`: one record appended per array element, in array order. -/
def appendDevices (g : Gjson) :
    List service.Device → List g.Result → List service.Device
  | deviceArray, [] => deviceArray
  | deviceArray, deviceJson :: rest => appendDevices g (deviceArray ++ [deviceOf g deviceJson]) rest

/-- The handler `GetDevices`. -/
def GetDevices (w : World) (req : service.GetDevicesRequest) :
    Handled service.GetDevicesResponse :=
  -- Check token
  match isTokenValid w req.Request with
  | .panic msg => (.panic msg, [])
  | .ret false => (.ret (none, some invalidToken), [])
  | .ret true =>
    -- Get devices and check for errors
    match NSORestconfController.GetDevices w w.nsoRestconfCtl with
    | ((_, some err), events) => (.ret (none, some err), Event.controller .GetDevices :: events)
    | ((devices, none), events) =>
      -- Validate output is expected
      let result := w.gjson.Get devices "tailf-ncs:device"
      let deviceArray := appendDevices w.gjson [] (w.gjson.Array result)
      let getDeviceResponse : service.GetDevicesResponse := { Devices := deviceArray }
      (.ret (some getDeviceResponse, none), Event.controller .GetDevices :: events)

/-- The handler `ExecOperation`. -/
def ExecOperation (w : World) (req : service.ExecOperationRequest) :
    Handled service.ExecOperationResponse :=
  -- Check token
  match isTokenValid w req.Request with
  | .panic msg => (.panic msg, [])
  | .ret false => (.ret (none, some invalidToken), [])
  | .ret true =>
    -- full path represents url with query strings
    let fullPath := req.GetPath
    -- if options is not null, add them as query strings
    let fullPath := if req.GetOptions != "" then fullPath ++ "?" ++ req.GetOptions else fullPath
    match NSORestconfController.ExecOperations w w.nsoRestconfCtl fullPath req.GetJsonData with
    | ((_, some err), events) =>
      (.ret (none, some err),
        Event.controller (.ExecOperations fullPath req.GetJsonData) :: events)
    | ((result, none), events) =>
      -- Create base response
      let response : service.Response := { Result := result }
      -- Build RPC response and return
      let execOperationResponse : service.ExecOperationResponse := { Response := some response }
      (.ret (some execOperationResponse, none),
        Event.controller (.ExecOperations fullPath req.GetJsonData) :: events)

/-- The handler `GetConfig`. -/
def GetConfig (w : World) (req : service.GetConfigRequest) :
    Handled service.GetConfigResponse :=
  -- Check token
  match isTokenValid w req.Request with
  | .panic msg => (.panic msg, [])
  | .ret false => (.ret (none, some invalidToken), [])
  | .ret true =>
    -- full path represents url with query strings
    let fullPath := req.GetPath
    -- if options is not null, add them as query strings
    let fullPath := if req.GetOptions != "" then fullPath ++ "?" ++ req.GetOptions else fullPath
    match NSORestconfController.GetConfig w w.nsoRestconfCtl fullPath with
    | ((_, some err), events) =>
      (.ret (none, some err), Event.controller (.GetConfig fullPath) :: events)
    | ((config, none), events) =>
      -- Create base response
      let response : service.Response := { Result := config }
      -- Build RPC response and return
      let getConfigResponse : service.GetConfigResponse := { Response := some response }
      (.ret (some getConfigResponse, none), Event.controller (.GetConfig fullPath) :: events)

/-- The handler `Query`. -/
def Query (w : World) (req : service.QueryRequest) : Handled service.QueryResponse :=
  -- Check token
  match isTokenValid w req.Request with
  | .panic msg => (.panic msg, [])
  | .ret false => (.ret (none, some invalidToken), [])
  | .ret true =>
    match NSORestconfController.Query w w.nsoRestconfCtl req.GetJsonQuery with
    | ((_, some err), events) =>
      (.ret (none, some err), Event.controller (.Query req.GetJsonQuery) :: events)
    | ((result, none), events) =>
      -- Create base response
      let response : service.Response := { Result := result }
      -- Build RPC response and return
      let getQueryResponse : service.QueryResponse := { Response := some response }
      (.ret (some getQueryResponse, none), Event.controller (.Query req.GetJsonQuery) :: events)

/-- The handler `EditConfig`. -/
def EditConfig (w : World) (req : service.EditConfigRequest) :
    Handled service.EditConfigResponse :=
  -- Check token
  match isTokenValid w req.Request with
  | .panic msg => (.panic msg, [])
  | .ret false => (.ret (none, some invalidToken), [])
  | .ret true =>
    -- full path represents url with query strings
    let fullPath := req.GetPath
    -- if options is not null, add them as query strings
    let fullPath := if req.GetOptions != "" then fullPath ++ "?" ++ req.GetOptions else fullPath
    -- the switch on the operation type; its default case returns
    match (if req.GetOperationType = "merge" then some http.MethodPatch
           else if req.GetOperationType = "replace" then some http.MethodPut
           else if req.GetOperationType = "create" then some http.MethodPost
           else if req.GetOperationType = "delete" then some http.MethodDelete
           else none : Option String) with
    | none =>
      (.ret (none, some (.errorsNew
        ("Operation type " ++ req.GetOperationType ++ " not supported by this server"))), [])
    | some httpMethod =>
      match NSORestconfController.EditConfig w w.nsoRestconfCtl fullPath req.GetJsonData
          httpMethod with
      | ((_, some err), events) =>
        (.ret (none, some err),
          Event.controller (.EditConfig fullPath req.GetJsonData httpMethod) :: events)
      | ((nsoReply, none), events) =>
        -- Create base response
        let response : service.Response := { Result := nsoReply }
        -- Build RPC response and return
        let editConfigResponse : service.EditConfigResponse := { Response := some response }
        (.ret (some editConfigResponse, none),
          Event.controller (.EditConfig fullPath req.GetJsonData httpMethod) :: events)

end nsoService

/-! ## A reference `gjson`

An executable reading of `gjson` for well-formed JSON documents and for the paths this
program uses: object keys separated by dots, without wildcards, indexes, modifiers or
escapes.  Like the library it scans the text and never builds a tree: the members of an
object are visited in order, a member's value is skipped by matching brackets, and `Raw` is
the very text of the value.  It is the `Gjson` the concrete scenarios run on.  The theorems
that are stated for every `Gjson` do not depend on it.
-/

namespace gjsonRef

/-- The type tag of a result (`gjson.Type`). -/
inductive Kind where
  | Null | False | Number | String | True | JSON
  deriving DecidableEq, Repr

/-- A result (`gjson.Result`): its tag, its text in the document and, for a string, its
unescaped content. -/
structure Value where
  Type_ : Kind
  Raw : String
  Str : String
  deriving DecidableEq, Repr

/-- The result of a path that finds nothing: the zero `Result`. -/
def missing : Value := { Type_ := .Null, Raw := "", Str := "" }

/-- The double quote. -/
def quote : Char := Char.ofNat 34
/-- The backslash. -/
def backslash : Char := Char.ofNat 92
/-- The opening brace. -/
def lbrace : Char := Char.ofNat 123
/-- The closing brace. -/
def rbrace : Char := Char.ofNat 125
/-- The opening bracket. -/
def lbracket : Char := Char.ofNat 91
/-- The closing bracket. -/
def rbracket : Char := Char.ofNat 93

/-- The characters that can open a value. -/
def startsValue (c : Char) : Bool :=
  c = quote || c = lbrace || c = lbracket || c = '-' || c.isDigit || c = 't' || c = 'f' || c = 'n'

/-- The characters that end a number. -/
def endsNumber (c : Char) : Bool :=
  c.toNat ≤ 32 || c = ',' || c = rbracket || c = rbrace

/-- Reads a string whose opening quote has been consumed: its text between the quotes and
what follows the closing quote.  A backslash protects the next character. -/
def scanString : List Char → List Char → Option (List Char × List Char)
  | _, [] => none
  | acc, c :: cs =>
    if c = quote then some (acc.reverse, cs)
    else if c = backslash then
      match cs with
      | [] => none
      | d :: ds => scanString (d :: c :: acc) ds
    else scanString (c :: acc) cs

/-- The value of a hexadecimal digit. -/
def hexDigit (c : Char) : Nat :=
  if c.isDigit then c.toNat - 48
  else if 97 ≤ c.toNat ∧ c.toNat ≤ 102 then c.toNat - 87
  else if 65 ≤ c.toNat ∧ c.toNat ≤ 70 then c.toNat - 55
  else 0

/-- Replaces the escape sequences of a string text by the characters they stand for
(four-digit escapes of the basic plane only). -/
def unescape : List Char → List Char
  | [] => []
  | c :: cs =>
    if c = backslash then
      match cs with
      | [] => []
      | d :: ds =>
        if d = 'b' then Char.ofNat 8 :: unescape ds
        else if d = 'f' then Char.ofNat 12 :: unescape ds
        else if d = 'n' then Char.ofNat 10 :: unescape ds
        else if d = 'r' then Char.ofNat 13 :: unescape ds
        else if d = 't' then Char.ofNat 9 :: unescape ds
        else if d = 'u' then
          match ds with
          | h1 :: h2 :: h3 :: h4 :: rest =>
            Char.ofNat (((hexDigit h1 * 16 + hexDigit h2) * 16 + hexDigit h3) * 16 + hexDigit h4)
              :: unescape rest
          | _ => []
        else d :: unescape ds
    else c :: unescape cs

/-- Skips an object or array by matching brackets outside strings; `depth` counts the open
brackets and `inString` tells whether the scan is inside a string.  Gives the text up to
and including the closing bracket, and what follows it. -/
def squash : Nat → Bool → List Char → List Char → List Char × List Char
  | _, _, acc, [] => (acc.reverse, [])
  | depth, true, acc, c :: cs =>
    if c = backslash then
      match cs with
      | [] => ((c :: acc).reverse, [])
      | d :: ds => squash depth true (d :: c :: acc) ds
    else if c = quote then squash depth false (c :: acc) cs
    else squash depth true (c :: acc) cs
  | depth, false, acc, c :: cs =>
    if c = quote then squash depth true (c :: acc) cs
    else if c = lbrace ∨ c = lbracket then squash (depth + 1) false (c :: acc) cs
    else if c = rbrace ∨ c = rbracket then
      if depth ≤ 1 then ((c :: acc).reverse, cs) else squash (depth - 1) false (c :: acc) cs
    else squash depth false (c :: acc) cs

/-- Reads the value that starts at the head of the text, and gives what follows it. -/
def scanValue : List Char → Option (Value × List Char)
  | [] => none
  | c :: cs =>
    if c = quote then
      match scanString [] cs with
      | none => none
      | some (body, rest) =>
        some ({ Type_ := .String, Raw := String.mk (quote :: body ++ [quote]),
                Str := String.mk (unescape body) }, rest)
    else if c = lbrace ∨ c = lbracket then
      match squash 1 false [c] cs with
      | (raw, rest) => some ({ Type_ := .JSON, Raw := String.mk raw, Str := "" }, rest)
    else if c = '-' ∨ c.isDigit then
      some ({ Type_ := .Number, Raw := String.mk ((c :: cs).takeWhile (fun d => !endsNumber d)),
              Str := "" }, (c :: cs).dropWhile (fun d => !endsNumber d))
    else if c = 't' ∨ c = 'f' ∨ c = 'n' then
      some ({ Type_ := if c = 't' then .True else if c = 'f' then .False else .Null,
              Raw := String.mk (c :: cs.takeWhile Char.isLower), Str := "" },
            cs.dropWhile Char.isLower)
    else none

/-- Looks `key` (and then the keys of `more`) up among the members of an object whose
opening brace has been consumed.  A member with the right key whose value does not lead to
a result does not end the search. -/
def objectGet : Nat → List Char → List Char → List (List Char) → Option Value
  | 0, _, _, _ => none
  | fuel + 1, cs, key, more =>
    match cs.dropWhile (fun c => !(c = quote || c = rbrace)) with
    | [] => none
    | c :: cs1 =>
      if c = rbrace then none
      else
        match scanString [] cs1 with
        | none => none
        | some (k, cs2) =>
          match scanValue (cs2.dropWhile (fun c => !startsValue c)) with
          | none => none
          | some (v, cs3) =>
            if unescape k = key then
              match more with
              | [] => some v
              | key2 :: more2 =>
                match v.Raw.toList with
                | b :: inner =>
                  if b = lbrace then
                    match objectGet fuel inner key2 more2 with
                    | some found => some found
                    | none => objectGet fuel cs3 key more
                  else objectGet fuel cs3 key more
                | [] => objectGet fuel cs3 key more
            else objectGet fuel cs3 key more

/-- Cuts a path at its dots. -/
def splitPath : List Char → List Char → List (List Char)
  | acc, [] => [acc.reverse]
  | acc, c :: cs => if c = '.' then acc.reverse :: splitPath [] cs else splitPath (c :: acc) cs

/-- The call `gjson.Get(json, path)`: the lookup starts at the first brace or bracket of the
text; a key path finds nothing in an array. -/
def Get (json path : String) : Value :=
  match json.toList.dropWhile (fun c => !(c = lbrace || c = lbracket)), splitPath [] path.toList with
  | c :: cs, key :: more =>
    if c = lbrace then (objectGet (cs.length + 1) cs key more).getD missing else missing
  | _, _ => missing

/-- The method `Exists()`. -/
def Value.Exists (t : Value) : Bool := t.Type_ != .Null || t.Raw.length != 0

/-- The method `String()`.  A number is given by its text in the document, which is what
the library does for integer literals; other numbers are outside this model. -/
def Value.String (t : Value) : String :=
  match t.Type_ with
  | .Null => ""
  | .False => "false"
  | .True => "true"
  | .Number => t.Raw
  | .String => t.Str
  | .JSON => t.Raw

/-- The elements of an array whose opening bracket has been consumed. -/
def elements : Nat → List Char → List Value
  | 0, _ => []
  | fuel + 1, cs =>
    match cs.dropWhile (fun c => !(startsValue c || c = rbracket)) with
    | [] => []
    | c :: rest =>
      if c = rbracket then []
      else
        match scanValue (c :: rest) with
        | none => []
        | some (v, rest2) => v :: elements fuel rest2

/-- The method `Array()`: nothing for a null result, the result itself when it is not an
array, else its elements. -/
def Value.Array (t : Value) : List Value :=
  if t.Type_ = .Null then []
  else
    match t.Raw.toList with
    | c :: cs => if t.Type_ = .JSON ∧ c = lbracket then elements (cs.length + 1) cs else [t]
    | [] => [t]

end gjsonRef

/-- The reference `gjson` as a collaborator. -/
def gjsonRef.lib : Gjson :=
  { Result := gjsonRef.Value
    Get := gjsonRef.Get
    Raw := gjsonRef.Value.Raw
    Exists := gjsonRef.Value.Exists
    String := gjsonRef.Value.String
    Array := gjsonRef.Value.Array }

/-! ## The words of the specification -/

/-- The path construction rule as the specification words it: the path, followed by a
question mark and the options when the options are not empty. -/
def fullPathSpec (path options : String) : String :=
  if options = "" then path else path ++ "?" ++ options

/-- The operation types the specification supports, each with its HTTP method. -/
def operationTypesSpec : List (String × String) :=
  [("merge", "PATCH"), ("replace", "PUT"), ("create", "POST"), ("delete", "DELETE")]

/-- The device type of an element as the specification words it: the `cli` variant if it
exists, else the `netconf` one, else the `generic` one, else none. -/
def deviceTypeSpec (g : Gjson) (raw : String) : Option service.DeviceType :=
  if g.Exists (g.Get raw "device-type.cli") then
    some { NedType := "cli", NedId := g.String (g.Get raw "device-type.cli.ned-id") }
  else if g.Exists (g.Get raw "device-type.netconf") then
    some { NedType := "netconf", NedId := g.String (g.Get raw "device-type.netconf.ned-id") }
  else if g.Exists (g.Get raw "device-type.generic") then
    some { NedType := "generic", NedId := g.String (g.Get raw "device-type.generic.ned-id") }
  else none

/-- The calls of controller-client methods in a trace, in order. -/
def controllerCalls : List Event → List ControllerCall
  | [] => []
  | .controller call :: rest => call :: controllerCalls rest
  | .newRequest _ _ _ :: rest => controllerCalls rest
  | .clientDo _ :: rest => controllerCalls rest

/-- The text `s` contains the text `t`. -/
def Contains (s t : String) : Prop := ∃ a b : String, s = a ++ t ++ b

/-- The controller answers the request `(method, url, body)` of client `r`: `net/http`
accepts the request, the exchange brings back `resp`, and its body reads as `data`. -/
def Replies (w : World) (r : NSORestconfController) (method url : String)
    (body : Option String) (resp : HttpResponse) (data : String) : Prop :=
  ∃ req, w.http.NewRequest method url body = .ok req ∧
    w.http.Do (NSORestconfController.prepareRequest r req) = .ok resp ∧ resp.Body = .ok data

/-- The calls of one client operation for `(method, url, body)`: `http.NewRequest` with
these arguments and, when it accepts them, `client.Do` once, with the request it built
after `prepareRequest`. -/
def exchangeTrace (w : World) (r : NSORestconfController) (method url : String)
    (body : Option String) : List Event :=
  Event.newRequest method url body ::
    (match w.http.NewRequest method url body with
     | .error _ => []
     | .ok req => [Event.clientDo (NSORestconfController.prepareRequest r req)])

/-- The result of one client operation for `(method, url, body)`: the error of
`http.NewRequest` when it refuses them, else the result of `makeRequest`. -/
def exchangeResult (w : World) (r : NSORestconfController) (method url : String)
    (body : Option String) : ClientResult :=
  match w.http.NewRequest method url body with
  | .error err => ("", some (.library err))
  | .ok req => (NSORestconfController.makeRequest w r req).1

/-- What `makeRequest` makes of a response with text `data`, as the specification words
it: an HTTP error outside [200,299], else a logical error if `errors` exists, else the
text. -/
def dispatchSpec (w : World) (resp : HttpResponse) (data : String) : ClientResult :=
  if resp.StatusCode < 200 ∨ 299 < resp.StatusCode then
    ("", some (.errorsNew ("Status " ++ resp.Status ++ " returned from NSO: " ++ data)))
  else if w.gjson.Exists (w.gjson.Get data "errors") = true then
    ("", some (.errorsNew ("Error returned from NSO: " ++ w.gjson.String (w.gjson.Get data "errors"))))
  else (data, none)

/-- The request a client operation sends for `(method, url, body)`, as the specification
words it: that method, URL and body, with basic authentication from the descriptor and the
`Accept` and `Content-Type` headers of the YANG-JSON media type. -/
def sentRequest (r : NSORestconfController) (method url : String) (body : Option String) :
    HttpRequest :=
  { Method := method, URL := url, Body := body,
    Header := [("Accept", "application/yang-data+json"),
               ("Content-Type", "application/yang-data+json")],
    BasicAuth := some (r.Username, r.Password) }

/-- One client operation for `(method, url, body)` as the specification words it.  When
`http.NewRequest` refuses the arguments: its error, and nothing is sent.  Else the request
`sentRequest` goes to `client.Do` once, and the result is the transport error, the error of
reading the body, or what `dispatchSpec` makes of the response. -/
def exchangeSpec (w : World) (r : NSORestconfController) (method url : String)
    (body : Option String) : ClientResult × List Event :=
  match w.http.refuses method url body with
  | some err => (("", some (.library err)), [Event.newRequest method url body])
  | none =>
    (match w.http.Do (sentRequest r method url body) with
     | .error err => ("", some (.library err))
     | .ok resp =>
       match resp.Body with
       | .error err => ("", some (.library err))
       | .ok data => dispatchSpec w resp data,
     [Event.newRequest method url body, Event.clientDo (sentRequest r method url body)])

/-- How the four pass-through handlers turn the result of the client into their own: the
error as it is, or the text wrapped by `envelope`. -/
def wrapResult {α : Type} (envelope : String → α) : ClientResult → Go (Option α × Option GoError)
  | (_, some err) => .ret (none, some err)
  | (data, none) => .ret (some (envelope data), none)

/-- How a pass-through handler turns the outcome of its client call into its own: the
result wrapped by `envelope`, and the call recorded ahead of what the client did. -/
def passThrough {α : Type} (envelope : String → α) (call : ControllerCall)
    (outcome : ClientResult × List Event) : Go (Option α × Option GoError) × List Event :=
  (wrapResult envelope outcome.1, Event.controller call :: outcome.2)

/-! ## Scenarios -/

/-- A `net/http` that accepts every request as it is given and answers each exchange with
`resp`. -/
def stubHttp (resp : HttpResponse) : Http :=
  { refuses := fun _ _ _ => none
    Do := fun _ => .ok resp }

/-- A `net/http` that accepts every request and whose controller answers 200 with a body
that spells out the method, the URL and the body of the request it got. -/
def echoHttp : Http :=
  { refuses := fun _ _ _ => none
    Do := fun req =>
      .ok { Status := "200 OK", StatusCode := 200,
            Body := .ok (req.Method ++ " " ++ req.URL ++ " " ++ req.Body.getD "(no body)") } }

/-- The world of an echo scenario: no configured token, the echoing controller, the
reference `gjson`. -/
def echoScenario : World :=
  { TOKEN := ""
    nsoRestconfCtl :=
      { Url := "https://nso.lab:8888/restconf", Username := "admin", Password := "admin" }
    http := echoHttp
    gjson := gjsonRef.lib }

/-- A controller client for the scenarios. -/
def labController : NSORestconfController :=
  { Url := "https://nso.lab:8888/restconf", Username := "admin", Password := "admin" }

/-- The response of a scenario. -/
def scenarioResponse (code : Int) (status body : String) : HttpResponse :=
  { Status := status, StatusCode := code, Body := .ok body }

/-- The world of a scenario: the configured token, and a controller that answers every
call with the given status and body; JSON is read by the reference `gjson`. -/
def scenario (token : String) (code : Int) (status body : String) : World :=
  { TOKEN := token
    nsoRestconfCtl := labController
    http := stubHttp (scenarioResponse code status body)
    gjson := gjsonRef.lib }

/-- A request as `http.NewRequest` hands it over. -/
def sampleRequest : HttpRequest :=
  { Method := "GET", URL := "https://nso.lab:8888/restconf/data/tailf-ncs:devices",
    Body := none, Header := [], BasicAuth := none }

/-- The body `{"errors":{"error":[{"error-message":"bad path"}]}}`. -/
def badPathBody : String :=
  "\x7b\"errors\":\x7b\"error\":[\x7b\"error-message\":\"bad path\"\x7d]\x7d\x7d"

/-- A device list of two elements: a `cli` device and then a `netconf` device. -/
def twoDevicesBody : String :=
  "\x7b\"tailf-ncs:device\":[" ++
  "\x7b\"name\":\"ios0\",\"address\":\"10.0.0.1\",\"authgroup\":\"default\"," ++
  "\"device-type\":\x7b\"cli\":\x7b\"ned-id\":\"cisco-ios-cli-3.0\"\x7d\x7d\x7d," ++
  "\x7b\"name\":\"nx0\",\"address\":\"10.0.0.2\",\"authgroup\":\"lab\"," ++
  "\"device-type\":\x7b\"netconf\":\x7b\"ned-id\":\"cisco-nx-netconf\"\x7d\x7d\x7d]\x7d"

/-- A device list of three elements: one with `netconf` and `cli` at once, one with
`generic` and `netconf` at once, and one without `device-type`. -/
def mixedDevicesBody : String :=
  "\x7b\"tailf-ncs:device\":[" ++
  "\x7b\"name\":\"a\",\"address\":\"10.0.0.1\",\"authgroup\":\"g\"," ++
  "\"device-type\":\x7b\"netconf\":\x7b\"ned-id\":\"nc\"\x7d,\"cli\":\x7b\"ned-id\":\"ios\"\x7d\x7d\x7d," ++
  "\x7b\"name\":\"b\",\"address\":\"10.0.0.2\",\"authgroup\":\"g\"," ++
  "\"device-type\":\x7b\"generic\":\x7b\"ned-id\":\"gen\"\x7d,\"netconf\":\x7b\"ned-id\":\"nc\"\x7d\x7d\x7d," ++
  "\x7b\"name\":\"c\",\"address\":\"10.0.0.3\",\"authgroup\":\"g\"\x7d]\x7d"

/-! ## The controller client: what it sends and how it reads the answer -/

open NSORestconfController in
/-- The outcome of `makeRequest` when the exchange brings back `resp` with text `data`. -/
theorem makeRequest_of_response (w : World) (r : NSORestconfController) (req : HttpRequest)
    (resp : HttpResponse) (data : String)
    (hdo : w.http.Do (prepareRequest r req) = .ok resp) (hbody : resp.Body = .ok data) :
    makeRequest w r req = (dispatchSpec w resp data, [Event.clientDo (prepareRequest r req)]) := by
  unfold makeRequest dispatchSpec
  simp only [hdo, hbody]

open NSORestconfController in
/-- The trace of `makeRequest` is the one call of `client.Do`. -/
theorem makeRequest_trace (w : World) (r : NSORestconfController) (req : HttpRequest) :
    (makeRequest w r req).2 = [Event.clientDo (prepareRequest r req)] := by
  simp [makeRequest]

open NSORestconfController in
/-- An error of `makeRequest` comes with the empty text. -/
theorem makeRequest_error_text (w : World) (r : NSORestconfController) (req : HttpRequest)
    (err : GoError) (h : (makeRequest w r req).1.2 = some err) :
    (makeRequest w r req).1.1 = "" := by
  unfold makeRequest at h ⊢
  simp only at h ⊢
  split <;> try rfl
  split <;> try rfl
  split <;> try rfl
  split <;> try rfl
  rename_i h1 h2 h3 h4 h5 h6
  simp_all

open NSORestconfController in
/-- The method `GetDevices` is one exchange for its method, URL and body. -/
theorem GetDevices_exchange (w : World) (r : NSORestconfController) :
    GetDevices w r =
      (exchangeResult w r "GET" (r.Url ++ "/data/tailf-ncs:devices/device?fields=address;name;device-type;authgroup&depth=2") none,
       exchangeTrace w r "GET" (r.Url ++ "/data/tailf-ncs:devices/device?fields=address;name;device-type;authgroup&depth=2") none) := by
  unfold NSORestconfController.GetDevices exchangeResult exchangeTrace
  simp only []
  cases hnew : w.http.NewRequest "GET" (r.Url ++ "/data/tailf-ncs:devices/device?fields=address;name;device-type;authgroup&depth=2") none with
  | error err => rfl
  | ok req =>
    have htrace := makeRequest_trace w r req
    have htext := makeRequest_error_text w r req
    rcases hmk : makeRequest w r req with ⟨⟨data, err⟩, events⟩
    rw [hmk] at htrace htext
    cases err with
    | none => simp_all
    | some e =>
      have := htext e rfl
      simp_all

open NSORestconfController in
/-- The method `GetConfig` is one exchange for its method, URL and body. -/
theorem GetConfig_exchange (w : World) (r : NSORestconfController) (purl : String) :
    GetConfig w r purl =
      (exchangeResult w r "GET" (r.Url ++ ("/data" ++ purl)) none,
       exchangeTrace w r "GET" (r.Url ++ ("/data" ++ purl)) none) := by
  unfold NSORestconfController.GetConfig exchangeResult exchangeTrace
  simp only []
  cases hnew : w.http.NewRequest "GET" (r.Url ++ ("/data" ++ purl)) none with
  | error err => rfl
  | ok req =>
    have htrace := makeRequest_trace w r req
    have htext := makeRequest_error_text w r req
    rcases hmk : makeRequest w r req with ⟨⟨data, err⟩, events⟩
    rw [hmk] at htrace htext
    cases err with
    | none => simp_all
    | some e =>
      have := htext e rfl
      simp_all

open NSORestconfController in
/-- The method `EditConfig` is one exchange for its method, URL and body. -/
theorem EditConfig_exchange (w : World) (r : NSORestconfController) (purl payload httpMethod : String) :
    EditConfig w r purl payload httpMethod =
      (exchangeResult w r httpMethod (r.Url ++ ("/data" ++ purl)) (some payload),
       exchangeTrace w r httpMethod (r.Url ++ ("/data" ++ purl)) (some payload)) := by
  unfold NSORestconfController.EditConfig exchangeResult exchangeTrace
  simp only []
  cases hnew : w.http.NewRequest httpMethod (r.Url ++ ("/data" ++ purl)) (some payload) with
  | error err => rfl
  | ok req =>
    have htrace := makeRequest_trace w r req
    have htext := makeRequest_error_text w r req
    rcases hmk : makeRequest w r req with ⟨⟨data, err⟩, events⟩
    rw [hmk] at htrace htext
    cases err with
    | none => simp_all
    | some e =>
      have := htext e rfl
      simp_all

open NSORestconfController in
/-- The method `Query` is one exchange for its method, URL and body. -/
theorem Query_exchange (w : World) (r : NSORestconfController) (payload : String) :
    Query w r payload =
      (exchangeResult w r "POST" (r.Url ++ "/tailf/query") (some payload),
       exchangeTrace w r "POST" (r.Url ++ "/tailf/query") (some payload)) := by
  unfold NSORestconfController.Query exchangeResult exchangeTrace
  simp only []
  cases hnew : w.http.NewRequest "POST" (r.Url ++ "/tailf/query") (some payload) with
  | error err => rfl
  | ok req =>
    have htrace := makeRequest_trace w r req
    have htext := makeRequest_error_text w r req
    rcases hmk : makeRequest w r req with ⟨⟨data, err⟩, events⟩
    rw [hmk] at htrace htext
    cases err with
    | none => simp_all
    | some e =>
      have := htext e rfl
      simp_all

open NSORestconfController in
/-- The method `ExecOperations` is one exchange for its method, URL and body. -/
theorem ExecOperations_exchange (w : World) (r : NSORestconfController) (purl payload : String) :
    ExecOperations w r purl payload =
      (exchangeResult w r "POST" (r.Url ++ ("/operations" ++ purl)) (some payload),
       exchangeTrace w r "POST" (r.Url ++ ("/operations" ++ purl)) (some payload)) := by
  unfold NSORestconfController.ExecOperations exchangeResult exchangeTrace
  simp only []
  cases hnew : w.http.NewRequest "POST" (r.Url ++ ("/operations" ++ purl)) (some payload) with
  | error err => rfl
  | ok req =>
    have htrace := makeRequest_trace w r req
    have htext := makeRequest_error_text w r req
    rcases hmk : makeRequest w r req with ⟨⟨data, err⟩, events⟩
    rw [hmk] at htrace htext
    cases err with
    | none => simp_all
    | some e =>
      have := htext e rfl
      simp_all

/-- The result of an exchange the controller answers. -/
theorem exchangeResult_of_replies (w : World) (r : NSORestconfController) (method url : String)
    (body : Option String) (resp : HttpResponse) (data : String)
    (h : Replies w r method url body resp data) :
    exchangeResult w r method url body = dispatchSpec w resp data := by
  obtain ⟨req, hnew, hdo, hbody⟩ := h
  unfold exchangeResult
  rw [hnew]
  simp only [makeRequest_of_response w r req resp data hdo hbody]

/-- A `newRequest` event of an exchange carries the URL of the exchange. -/
theorem url_of_exchangeTrace (w : World) (r : NSORestconfController) (method url : String)
    (body : Option String) (m u : String) (b : Option String)
    (h : Event.newRequest m u b ∈ exchangeTrace w r method url body) : u = url := by
  unfold exchangeTrace at h
  cases hnew : w.http.NewRequest method url body with
  | error err => simp_all
  | ok req => simp_all

/-- The request `makeRequest` sends is the request of the specification. -/
theorem prepareRequest_new (r : NSORestconfController) (method url : String)
    (body : Option String) :
    NSORestconfController.prepareRequest r
      { Method := method, URL := url, Body := body, Header := [], BasicAuth := none } =
      sentRequest r method url body := rfl

/-- An exchange of the client is the exchange of the specification. -/
theorem exchange_spec (w : World) (r : NSORestconfController) (method url : String)
    (body : Option String) :
    (exchangeResult w r method url body, exchangeTrace w r method url body) =
      exchangeSpec w r method url body := by
  unfold exchangeResult exchangeTrace exchangeSpec Http.NewRequest
  cases hrefuses : w.http.refuses method url body with
  | some err => rfl
  | none =>
    simp only [prepareRequest_new, NSORestconfController.makeRequest, dispatchSpec]

/-- C6: when the exchange brings back a response whose status code is outside [200,299],
`makeRequest` returns the empty text and the error "Status <status line> returned from NSO:
<body text>", whatever the body holds, an `errors` field included; for a status code within
[200,299] the outcome is decided by the `errors` field alone: a logical error, or the body
text and no error. -/
theorem makeRequest_http_status (w : World) (r : NSORestconfController) (req : HttpRequest)
    (resp : HttpResponse) (data : String)
    (hdo : w.http.Do (NSORestconfController.prepareRequest r req) = .ok resp)
    (hbody : resp.Body = .ok data) :
    ((resp.StatusCode < 200 ∨ 299 < resp.StatusCode) →
      (NSORestconfController.makeRequest w r req).1 =
        ("", some (.errorsNew ("Status " ++ resp.Status ++ " returned from NSO: " ++ data)))) ∧
    ((200 ≤ resp.StatusCode ∧ resp.StatusCode ≤ 299) →
      (NSORestconfController.makeRequest w r req).1 =
        if w.gjson.Exists (w.gjson.Get data "errors") = true then
          ("", some (.errorsNew
            ("Error returned from NSO: " ++ w.gjson.String (w.gjson.Get data "errors"))))
        else (data, none)) := by
  rw [makeRequest_of_response w r req resp data hdo hbody]
  unfold dispatchSpec
  constructor
  · intro h
    simp only [h, if_true]
  · intro h
    have hn : ¬ (resp.StatusCode < 200 ∨ 299 < resp.StatusCode) := by omega
    simp only [hn, if_false]

/-! ## The handlers: authorization, path and method -/

/-- The path a handler builds is the path of the specification. -/
theorem fullPath_eq (path options : String) :
    (if (options != "") = true then path ++ "?" ++ options else path) =
      fullPathSpec path options := by
  unfold fullPathSpec
  by_cases h : options = "" <;> simp [h]

/-- The token check on a request that carries a token. -/
theorem isTokenValid_some (w : World) (r : service.Request) :
    nsoService.isTokenValid w (some r) = .ret (decide (w.TOKEN = "" ∨ w.TOKEN = r.Token)) := by
  unfold nsoService.isTokenValid
  by_cases h : w.TOKEN = ""
  · simp [h]
  · simp only [bne_iff_ne, ne_eq, h, not_false_eq_true, if_true, false_or]
    rfl

/-- The token check when no token is configured. -/
theorem isTokenValid_unset (w : World) (req : Option service.Request) (h : w.TOKEN = "") :
    nsoService.isTokenValid w req = .ret true := by
  unfold nsoService.isTokenValid
  simp [h]

/-- The token check on a request without the token message, when a token is configured. -/
theorem isTokenValid_nil (w : World) (h : w.TOKEN ≠ "") :
    nsoService.isTokenValid w none = .panic nilDereference := by
  unfold nsoService.isTokenValid
  simp [h]

/-- The handler `GetConfig` after a passed token check. -/
theorem GetConfig_authorized (w : World) (req : service.GetConfigRequest)
    (h : nsoService.isTokenValid w req.Request = .ret true) :
    nsoService.GetConfig w req =
      (wrapResult (fun data => ({ Response := some { Result := data } } : service.GetConfigResponse))
        (NSORestconfController.GetConfig w w.nsoRestconfCtl
          (fullPathSpec req.Path req.Options)).1,
       Event.controller (.GetConfig (fullPathSpec req.Path req.Options)) ::
        (NSORestconfController.GetConfig w w.nsoRestconfCtl
          (fullPathSpec req.Path req.Options)).2) := by
  unfold nsoService.GetConfig
  simp only [h, service.GetConfigRequest.GetPath, service.GetConfigRequest.GetOptions,
    fullPath_eq]
  rcases hc : NSORestconfController.GetConfig w w.nsoRestconfCtl
    (fullPathSpec req.Path req.Options) with ⟨⟨data, err⟩, events⟩
  cases err <;> rfl

/-- The handler `ExecOperation` after a passed token check. -/
theorem ExecOperation_authorized (w : World) (req : service.ExecOperationRequest)
    (h : nsoService.isTokenValid w req.Request = .ret true) :
    nsoService.ExecOperation w req =
      (wrapResult
        (fun data => ({ Response := some { Result := data } } : service.ExecOperationResponse))
        (NSORestconfController.ExecOperations w w.nsoRestconfCtl
          (fullPathSpec req.Path req.Options) req.JsonData).1,
       Event.controller (.ExecOperations (fullPathSpec req.Path req.Options) req.JsonData) ::
        (NSORestconfController.ExecOperations w w.nsoRestconfCtl
          (fullPathSpec req.Path req.Options) req.JsonData).2) := by
  unfold nsoService.ExecOperation
  simp only [h, service.ExecOperationRequest.GetPath, service.ExecOperationRequest.GetOptions,
    service.ExecOperationRequest.GetJsonData, fullPath_eq]
  rcases hc : NSORestconfController.ExecOperations w w.nsoRestconfCtl
    (fullPathSpec req.Path req.Options) req.JsonData with ⟨⟨data, err⟩, events⟩
  cases err <;> rfl

/-- The handler `Query` after a passed token check. -/
theorem Query_authorized (w : World) (req : service.QueryRequest)
    (h : nsoService.isTokenValid w req.Request = .ret true) :
    nsoService.Query w req =
      (wrapResult (fun data => ({ Response := some { Result := data } } : service.QueryResponse))
        (NSORestconfController.Query w w.nsoRestconfCtl req.JsonQuery).1,
       Event.controller (.Query req.JsonQuery) ::
        (NSORestconfController.Query w w.nsoRestconfCtl req.JsonQuery).2) := by
  unfold nsoService.Query
  simp only [h, service.QueryRequest.GetJsonQuery]
  rcases hc : NSORestconfController.Query w w.nsoRestconfCtl req.JsonQuery with
    ⟨⟨data, err⟩, events⟩
  cases err <;> rfl

/-- The handler `EditConfig` after a passed token check, for an operation type the switch
gives the method `httpMethod`. -/
theorem EditConfig_authorized (w : World) (req : service.EditConfigRequest)
    (h : nsoService.isTokenValid w req.Request = .ret true) (httpMethod : String)
    (hop : (req.OperationType, httpMethod) ∈ operationTypesSpec) :
    nsoService.EditConfig w req =
      (wrapResult
        (fun data => ({ Response := some { Result := data } } : service.EditConfigResponse))
        (NSORestconfController.EditConfig w w.nsoRestconfCtl
          (fullPathSpec req.Path req.Options) req.JsonData httpMethod).1,
       Event.controller
          (.EditConfig (fullPathSpec req.Path req.Options) req.JsonData httpMethod) ::
        (NSORestconfController.EditConfig w w.nsoRestconfCtl
          (fullPathSpec req.Path req.Options) req.JsonData httpMethod).2) := by
  unfold nsoService.EditConfig
  simp only [h, service.EditConfigRequest.GetPath, service.EditConfigRequest.GetOptions,
    service.EditConfigRequest.GetJsonData, service.EditConfigRequest.GetOperationType,
    fullPath_eq]
  simp only [operationTypesSpec, List.mem_cons, Prod.mk.injEq, List.mem_singleton,
    List.not_mem_nil, or_false] at hop
  rcases hop with ⟨hop, rfl⟩ | ⟨hop, rfl⟩ | ⟨hop, rfl⟩ | ⟨hop, rfl⟩ <;>
  · simp only [hop]
    simp only [String.reduceEq, if_true, if_false]
    rcases hc : NSORestconfController.EditConfig w w.nsoRestconfCtl
      (fullPathSpec req.Path req.Options) req.JsonData _ with ⟨⟨data, err⟩, events⟩
    cases err <;> rfl

/-- The handler `EditConfig` after a passed token check, for an operation type the switch
does not know. -/
theorem EditConfig_unsupported (w : World) (req : service.EditConfigRequest)
    (h : nsoService.isTokenValid w req.Request = .ret true)
    (hop : req.OperationType ∉ ["merge", "replace", "create", "delete"]) :
    nsoService.EditConfig w req =
      (.ret (none, some (.errorsNew
        ("Operation type " ++ req.OperationType ++ " not supported by this server"))), []) := by
  unfold nsoService.EditConfig
  simp only [List.mem_cons, List.mem_singleton, List.not_mem_nil, or_false, not_or] at hop
  obtain ⟨h1, h2, h3, h4⟩ := hop
  simp only [h, service.EditConfigRequest.GetOperationType, h1, h2, h3, h4, if_false]

/-- An exchange holds no call of a controller-client method. -/
theorem controllerCalls_exchangeTrace (w : World) (r : NSORestconfController)
    (method url : String) (body : Option String) :
    controllerCalls (exchangeTrace w r method url body) = [] := by
  unfold exchangeTrace
  cases w.http.NewRequest method url body <;> rfl

/-- A handler that calls one client method makes that one controller call. -/
theorem controllerCalls_call (w : World) (r : NSORestconfController) (call : ControllerCall)
    (method url : String) (body : Option String) :
    controllerCalls (Event.controller call :: exchangeTrace w r method url body) = [call] := by
  show call :: controllerCalls (exchangeTrace w r method url body) = [call]
  rw [controllerCalls_exchangeTrace]

/-- The error of an exchange is never a gRPC status. -/
theorem exchangeResult_not_status (w : World) (r : NSORestconfController)
    (method url : String) (body : Option String) (code : Code) (msg : String) :
    (exchangeResult w r method url body).2 ≠ some (.status code msg) := by
  unfold exchangeResult
  cases w.http.NewRequest method url body with
  | error err => simp
  | ok req =>
    simp only [NSORestconfController.makeRequest]
    split
    · simp
    · split
      · simp
      · split
        · simp
        · split <;> simp

/-- A wrapped result of an exchange is never the permission-denied answer. -/
theorem wrapResult_not_denied {α : Type} (envelope : String → α) (w : World)
    (r : NSORestconfController) (method url : String) (body : Option String) :
    wrapResult envelope (exchangeResult w r method url body) ≠
      .ret (none, some (.status .PermissionDenied "invalid token")) := by
  have h := exchangeResult_not_status w r method url body .PermissionDenied "invalid token"
  rcases hx : exchangeResult w r method url body with ⟨data, err⟩
  rw [hx] at h
  cases err with
  | none => simp [wrapResult]
  | some e =>
    simp only [wrapResult, ne_eq, Go.ret.injEq, Prod.mk.injEq, true_and]
    exact h

/-- C1: in an `EditConfig` request that passed the token check, the operation type decides
the HTTP method handed to the controller client: for "merge", "replace", "create" and
"delete" the handler is the pass-through of the client's `EditConfig` called with the path,
the payload and PATCH, PUT, POST and DELETE respectively, so that the exchange with the
controller is made with that method, and this is its one call of the client; for
every other operation type the handler returns the error "Operation type <value> not
supported by this server", which contains the value, and its trace is empty: neither the
client nor `net/http` is called. -/
theorem EditConfig_operation_type (w : World) (req : service.EditConfigRequest)
    (hauth : nsoService.isTokenValid w req.Request = .ret true) :
    (∀ operationType httpMethod : String,
      (operationType, httpMethod) ∈
        [("merge", "PATCH"), ("replace", "PUT"), ("create", "POST"), ("delete", "DELETE")] →
      req.OperationType = operationType →
      nsoService.EditConfig w req =
        passThrough (fun data => ({ Response := some { Result := data } } : service.EditConfigResponse))
          (.EditConfig (fullPathSpec req.Path req.Options) req.JsonData httpMethod)
          (NSORestconfController.EditConfig w w.nsoRestconfCtl
            (fullPathSpec req.Path req.Options) req.JsonData httpMethod) ∧
      nsoService.EditConfig w req =
        passThrough (fun data => ({ Response := some { Result := data } } : service.EditConfigResponse))
          (.EditConfig (fullPathSpec req.Path req.Options) req.JsonData httpMethod)
          (exchangeSpec w w.nsoRestconfCtl httpMethod
            (w.nsoRestconfCtl.Url ++ "/data" ++ fullPathSpec req.Path req.Options)
            (some req.JsonData)) ∧
      controllerCalls (nsoService.EditConfig w req).2 =
        [.EditConfig (fullPathSpec req.Path req.Options) req.JsonData httpMethod]) ∧
    (req.OperationType ∉ ["merge", "replace", "create", "delete"] →
      nsoService.EditConfig w req =
        (.ret (none, some (.errorsNew
          ("Operation type " ++ req.OperationType ++ " not supported by this server"))), []) ∧
      Contains ("Operation type " ++ req.OperationType ++ " not supported by this server")
        req.OperationType) := by
  constructor
  · intro operationType httpMethod hmem hop
    have hspec : (req.OperationType, httpMethod) ∈ operationTypesSpec := by
      rw [hop]
      exact hmem
    have hcall := EditConfig_authorized w req hauth httpMethod hspec
    have hexchange := (EditConfig_exchange w w.nsoRestconfCtl
      (fullPathSpec req.Path req.Options) req.JsonData httpMethod).trans
      (exchange_spec w w.nsoRestconfCtl _ _ _)
    rw [← String.append_assoc] at hexchange
    refine ⟨hcall, ?_, ?_⟩
    · rw [hcall, hexchange]
      rfl
    · rw [hcall, EditConfig_exchange]
      exact controllerCalls_call _ _ _ _ _ _
  · intro hop
    exact ⟨EditConfig_unsupported w req hauth hop,
      "Operation type ", " not supported by this server", rfl⟩

set_option maxRecDepth 100000 in
/-- C1 at four requests without a configured token.  A "merge" and a "delete" sent to a
controller that echoes the request it gets: the echo shows PATCH and DELETE.  The types
"remove", the empty one and "Merge": refused by name without any call. -/
theorem EditConfig_operation_type_witness :
    (nsoService.EditConfig echoScenario
      { Request := none, Path := "/tailf-ncs:devices", Options := "", OperationType := "merge",
        JsonData := "[1]" }).1 =
      .ret (some { Response := some (service.Response.mk
        "PATCH https://nso.lab:8888/restconf/data/tailf-ncs:devices [1]") }, none) ∧
    (nsoService.EditConfig echoScenario
      { Request := none, Path := "/tailf-ncs:devices", Options := "", OperationType := "delete",
        JsonData := "" }).1 =
      .ret (some { Response := some (service.Response.mk
        "DELETE https://nso.lab:8888/restconf/data/tailf-ncs:devices ") }, none) ∧
    nsoService.EditConfig echoScenario
      { Request := none, Path := "/tailf-ncs:devices", Options := "", OperationType := "remove",
        JsonData := "[1]" } =
      (.ret (none, some (.errorsNew "Operation type remove not supported by this server")), []) ∧
    nsoService.EditConfig echoScenario
      { Request := none, Path := "/tailf-ncs:devices", Options := "", OperationType := "",
        JsonData := "[1]" } =
      (.ret (none, some (.errorsNew "Operation type  not supported by this server")), []) ∧
    nsoService.EditConfig echoScenario
      { Request := none, Path := "/tailf-ncs:devices", Options := "", OperationType := "Merge",
        JsonData := "[1]" } =
      (.ret (none, some (.errorsNew "Operation type Merge not supported by this server")), []) :=
  ⟨congrArg Prod.fst ((EditConfig_operation_type echoScenario
      { Request := none, Path := "/tailf-ncs:devices", Options := "", OperationType := "merge",
        JsonData := "[1]" } rfl).1 "merge" "PATCH" (by decide) rfl).2.1,
   congrArg Prod.fst ((EditConfig_operation_type echoScenario
      { Request := none, Path := "/tailf-ncs:devices", Options := "", OperationType := "delete",
        JsonData := "" } rfl).1 "delete" "DELETE" (by decide) rfl).2.1,
   ((EditConfig_operation_type echoScenario
      { Request := none, Path := "/tailf-ncs:devices", Options := "", OperationType := "remove",
        JsonData := "[1]" } rfl).2 (by decide)).1,
   ((EditConfig_operation_type echoScenario
      { Request := none, Path := "/tailf-ncs:devices", Options := "", OperationType := "",
        JsonData := "[1]" } rfl).2 (by decide)).1,
   ((EditConfig_operation_type echoScenario
      { Request := none, Path := "/tailf-ncs:devices", Options := "", OperationType := "Merge",
        JsonData := "[1]" } rfl).2 (by decide)).1⟩

/-- The outer loop of `GetDevices` appends the records of the elements in order. -/
theorem appendDevices_eq (g : Gjson) (deviceArray : List service.Device)
    (elems : List g.Result) :
    nsoService.appendDevices g deviceArray elems =
      deviceArray ++ elems.map (nsoService.deviceOf g) := by
  induction elems generalizing deviceArray with
  | nil => simp [nsoService.appendDevices]
  | cons e rest ih => simp [nsoService.appendDevices, ih]

/-- The inner loop of `GetDevices` computes the device type of the specification. -/
theorem scanAllowedTypes_eq (g : Gjson) (raw : String) :
    nsoService.scanAllowedTypes g raw ["cli", "netconf", "generic"] = deviceTypeSpec g raw := by
  simp only [nsoService.scanAllowedTypes, deviceTypeSpec]
  rfl

/-- The handler `GetDevices` after a passed token check. -/
theorem GetDevices_authorized (w : World) (req : service.GetDevicesRequest)
    (h : nsoService.isTokenValid w req.Request = .ret true) :
    nsoService.GetDevices w req =
      (wrapResult
        (fun devices => service.GetDevicesResponse.mk
          (List.map (nsoService.deviceOf w.gjson)
            (w.gjson.Array (w.gjson.Get devices "tailf-ncs:device"))))
        (NSORestconfController.GetDevices w w.nsoRestconfCtl).1,
       Event.controller .GetDevices ::
        (NSORestconfController.GetDevices w w.nsoRestconfCtl).2) := by
  unfold nsoService.GetDevices
  simp only [h, appendDevices_eq, List.nil_append]
  rcases hc : NSORestconfController.GetDevices w w.nsoRestconfCtl with ⟨⟨data, err⟩, events⟩
  cases err <;> rfl

/-- A failed token check ends `GetDevices` with the permission-denied error and no call. -/
theorem GetDevices_denied (w : World) (req : service.GetDevicesRequest)
    (h : nsoService.isTokenValid w req.Request = .ret false) :
    nsoService.GetDevices w req =
      (.ret (none, some (.status .PermissionDenied "invalid token")), []) := by
  unfold nsoService.GetDevices
  simp only [h, nsoService.invalidToken]

/-- A failed token check ends `GetConfig` with the permission-denied error and no call. -/
theorem GetConfig_denied (w : World) (req : service.GetConfigRequest)
    (h : nsoService.isTokenValid w req.Request = .ret false) :
    nsoService.GetConfig w req =
      (.ret (none, some (.status .PermissionDenied "invalid token")), []) := by
  unfold nsoService.GetConfig
  simp only [h, nsoService.invalidToken]

/-- A failed token check ends `EditConfig` with the permission-denied error and no call. -/
theorem EditConfig_denied (w : World) (req : service.EditConfigRequest)
    (h : nsoService.isTokenValid w req.Request = .ret false) :
    nsoService.EditConfig w req =
      (.ret (none, some (.status .PermissionDenied "invalid token")), []) := by
  unfold nsoService.EditConfig
  simp only [h, nsoService.invalidToken]

/-- A failed token check ends `Query` with the permission-denied error and no call. -/
theorem Query_denied (w : World) (req : service.QueryRequest)
    (h : nsoService.isTokenValid w req.Request = .ret false) :
    nsoService.Query w req =
      (.ret (none, some (.status .PermissionDenied "invalid token")), []) := by
  unfold nsoService.Query
  simp only [h, nsoService.invalidToken]

/-- A failed token check ends `ExecOperation` with the permission-denied error and no
call. -/
theorem ExecOperation_denied (w : World) (req : service.ExecOperationRequest)
    (h : nsoService.isTokenValid w req.Request = .ret false) :
    nsoService.ExecOperation w req =
      (.ret (none, some (.status .PermissionDenied "invalid token")), []) := by
  unfold nsoService.ExecOperation
  simp only [h, nsoService.invalidToken]

/-- After a passed token check `GetDevices` does not answer permission-denied. -/
theorem GetDevices_accepted (w : World) (req : service.GetDevicesRequest)
    (h : nsoService.isTokenValid w req.Request = .ret true) :
    (nsoService.GetDevices w req).1 ≠
      .ret (none, some (.status .PermissionDenied "invalid token")) := by
  rw [GetDevices_authorized w req h, GetDevices_exchange]
  exact wrapResult_not_denied _ _ _ _ _ _

/-- After a passed token check `GetConfig` does not answer permission-denied. -/
theorem GetConfig_accepted (w : World) (req : service.GetConfigRequest)
    (h : nsoService.isTokenValid w req.Request = .ret true) :
    (nsoService.GetConfig w req).1 ≠
      .ret (none, some (.status .PermissionDenied "invalid token")) := by
  rw [GetConfig_authorized w req h, GetConfig_exchange]
  exact wrapResult_not_denied _ _ _ _ _ _

/-- After a passed token check `Query` does not answer permission-denied. -/
theorem Query_accepted (w : World) (req : service.QueryRequest)
    (h : nsoService.isTokenValid w req.Request = .ret true) :
    (nsoService.Query w req).1 ≠
      .ret (none, some (.status .PermissionDenied "invalid token")) := by
  rw [Query_authorized w req h, Query_exchange]
  exact wrapResult_not_denied _ _ _ _ _ _

/-- After a passed token check `ExecOperation` does not answer permission-denied. -/
theorem ExecOperation_accepted (w : World) (req : service.ExecOperationRequest)
    (h : nsoService.isTokenValid w req.Request = .ret true) :
    (nsoService.ExecOperation w req).1 ≠
      .ret (none, some (.status .PermissionDenied "invalid token")) := by
  rw [ExecOperation_authorized w req h, ExecOperations_exchange]
  exact wrapResult_not_denied _ _ _ _ _ _

/-- After a passed token check `EditConfig` does not answer permission-denied. -/
theorem EditConfig_accepted (w : World) (req : service.EditConfigRequest)
    (h : nsoService.isTokenValid w req.Request = .ret true) :
    (nsoService.EditConfig w req).1 ≠
      .ret (none, some (.status .PermissionDenied "invalid token")) := by
  by_cases hop : req.OperationType ∈ ["merge", "replace", "create", "delete"]
  · have : ∃ httpMethod, (req.OperationType, httpMethod) ∈ operationTypesSpec := by
      simp only [List.mem_cons, List.mem_singleton, List.not_mem_nil, or_false] at hop
      rcases hop with h1 | h1 | h1 | h1
      · exact ⟨"PATCH", by simp [h1, operationTypesSpec]⟩
      · exact ⟨"PUT", by simp [h1, operationTypesSpec]⟩
      · exact ⟨"POST", by simp [h1, operationTypesSpec]⟩
      · exact ⟨"DELETE", by simp [h1, operationTypesSpec]⟩
    obtain ⟨httpMethod, hm⟩ := this
    rw [EditConfig_authorized w req h httpMethod hm, EditConfig_exchange]
    exact wrapResult_not_denied _ _ _ _ _ _
  · rw [EditConfig_unsupported w req h hop]
    simp

/-- The token check fails exactly on a configured token that differs from the inbound one. -/
theorem isTokenValid_false_iff (w : World) (r : service.Request) :
    (w.TOKEN ≠ "" ∧ w.TOKEN ≠ r.Token → nsoService.isTokenValid w (some r) = .ret false) ∧
    (¬ (w.TOKEN ≠ "" ∧ w.TOKEN ≠ r.Token) → nsoService.isTokenValid w (some r) = .ret true) := by
  rw [isTokenValid_some]
  constructor
  · rintro ⟨h1, h2⟩
    simp [h1, h2]
  · intro h
    have : w.TOKEN = "" ∨ w.TOKEN = r.Token := by
      by_cases h1 : w.TOKEN = ""
      · exact Or.inl h1
      · by_cases h2 : w.TOKEN = r.Token
        · exact Or.inr h2
        · exact absurd ⟨h1, h2⟩ h
    simp [this]

/-- C2: for each of the five handlers, every configured token and every request that
carries a token: when the configured token is not empty and differs from the inbound one
the handler returns the permission-denied error "invalid token" and its trace is empty (no
controller call, whatever the other fields of the request hold, an unsupported operation
type of `EditConfig` included); otherwise the handler does not answer permission-denied and
goes on to its one call of the controller client (`EditConfig`: for a supported operation
type).  When no token is configured no request is answered permission-denied, with any
inbound token or none. -/
theorem token_check (w : World) (r : service.Request) (gd : service.GetDevicesRequest)
    (gc : service.GetConfigRequest) (ec : service.EditConfigRequest)
    (q : service.QueryRequest) (eo : service.ExecOperationRequest) :
    (((w.TOKEN ≠ "" ∧ w.TOKEN ≠ r.Token) →
        nsoService.GetDevices w { gd with Request := some r } =
          (.ret (none, some (.status .PermissionDenied "invalid token")), [])) ∧
      (¬ (w.TOKEN ≠ "" ∧ w.TOKEN ≠ r.Token) →
        (nsoService.GetDevices w { gd with Request := some r }).1 ≠
          .ret (none, some (.status .PermissionDenied "invalid token")) ∧
        controllerCalls (nsoService.GetDevices w { gd with Request := some r }).2 =
          [.GetDevices])) ∧
    (((w.TOKEN ≠ "" ∧ w.TOKEN ≠ r.Token) →
        nsoService.GetConfig w { gc with Request := some r } =
          (.ret (none, some (.status .PermissionDenied "invalid token")), [])) ∧
      (¬ (w.TOKEN ≠ "" ∧ w.TOKEN ≠ r.Token) →
        (nsoService.GetConfig w { gc with Request := some r }).1 ≠
          .ret (none, some (.status .PermissionDenied "invalid token")) ∧
        controllerCalls (nsoService.GetConfig w { gc with Request := some r }).2 =
          [.GetConfig (fullPathSpec gc.Path gc.Options)])) ∧
    (((w.TOKEN ≠ "" ∧ w.TOKEN ≠ r.Token) →
        nsoService.EditConfig w { ec with Request := some r } =
          (.ret (none, some (.status .PermissionDenied "invalid token")), [])) ∧
      (¬ (w.TOKEN ≠ "" ∧ w.TOKEN ≠ r.Token) →
        (nsoService.EditConfig w { ec with Request := some r }).1 ≠
          .ret (none, some (.status .PermissionDenied "invalid token")) ∧
        ∀ httpMethod, (ec.OperationType, httpMethod) ∈ operationTypesSpec →
          controllerCalls (nsoService.EditConfig w { ec with Request := some r }).2 =
            [.EditConfig (fullPathSpec ec.Path ec.Options) ec.JsonData httpMethod])) ∧
    (((w.TOKEN ≠ "" ∧ w.TOKEN ≠ r.Token) →
        nsoService.Query w { q with Request := some r } =
          (.ret (none, some (.status .PermissionDenied "invalid token")), [])) ∧
      (¬ (w.TOKEN ≠ "" ∧ w.TOKEN ≠ r.Token) →
        (nsoService.Query w { q with Request := some r }).1 ≠
          .ret (none, some (.status .PermissionDenied "invalid token")) ∧
        controllerCalls (nsoService.Query w { q with Request := some r }).2 =
          [.Query q.JsonQuery])) ∧
    (((w.TOKEN ≠ "" ∧ w.TOKEN ≠ r.Token) →
        nsoService.ExecOperation w { eo with Request := some r } =
          (.ret (none, some (.status .PermissionDenied "invalid token")), [])) ∧
      (¬ (w.TOKEN ≠ "" ∧ w.TOKEN ≠ r.Token) →
        (nsoService.ExecOperation w { eo with Request := some r }).1 ≠
          .ret (none, some (.status .PermissionDenied "invalid token")) ∧
        controllerCalls (nsoService.ExecOperation w { eo with Request := some r }).2 =
          [.ExecOperations (fullPathSpec eo.Path eo.Options) eo.JsonData])) ∧
    (w.TOKEN = "" →
      (nsoService.GetDevices w gd).1 ≠
        .ret (none, some (.status .PermissionDenied "invalid token")) ∧
      (nsoService.GetConfig w gc).1 ≠
        .ret (none, some (.status .PermissionDenied "invalid token")) ∧
      (nsoService.EditConfig w ec).1 ≠
        .ret (none, some (.status .PermissionDenied "invalid token")) ∧
      (nsoService.Query w q).1 ≠
        .ret (none, some (.status .PermissionDenied "invalid token")) ∧
      (nsoService.ExecOperation w eo).1 ≠
        .ret (none, some (.status .PermissionDenied "invalid token"))) := by
  have hf := (isTokenValid_false_iff w r).1
  have ht := (isTokenValid_false_iff w r).2
  refine ⟨⟨fun h => GetDevices_denied _ _ (hf h), fun h => ⟨GetDevices_accepted _ _ (ht h), ?_⟩⟩,
    ⟨fun h => GetConfig_denied _ _ (hf h), fun h => ⟨GetConfig_accepted _ _ (ht h), ?_⟩⟩,
    ⟨fun h => EditConfig_denied _ _ (hf h), fun h => ⟨EditConfig_accepted _ _ (ht h), ?_⟩⟩,
    ⟨fun h => Query_denied _ _ (hf h), fun h => ⟨Query_accepted _ _ (ht h), ?_⟩⟩,
    ⟨fun h => ExecOperation_denied _ _ (hf h),
      fun h => ⟨ExecOperation_accepted _ _ (ht h), ?_⟩⟩,
    fun h => ⟨GetDevices_accepted _ _ (isTokenValid_unset w _ h),
      GetConfig_accepted _ _ (isTokenValid_unset w _ h),
      EditConfig_accepted _ _ (isTokenValid_unset w _ h),
      Query_accepted _ _ (isTokenValid_unset w _ h),
      ExecOperation_accepted _ _ (isTokenValid_unset w _ h)⟩⟩
  · rw [GetDevices_authorized w _ (ht h), GetDevices_exchange]
    exact controllerCalls_call _ _ _ _ _ _
  · rw [GetConfig_authorized w _ (ht h), GetConfig_exchange]
    exact controllerCalls_call _ _ _ _ _ _
  · intro httpMethod hop
    rw [EditConfig_authorized w { ec with Request := some r } (ht h) httpMethod hop,
      EditConfig_exchange]
    exact controllerCalls_call _ _ _ _ _ _
  · rw [Query_authorized w _ (ht h), Query_exchange]
    exact controllerCalls_call _ _ _ _ _ _
  · rw [ExecOperation_authorized w _ (ht h), ExecOperations_exchange]
    exact controllerCalls_call _ _ _ _ _ _

/-- C2 at an `EditConfig` request with the wrong token and the unsupported operation type
"remove": the answer is permission-denied, not unsupported-operation, and nothing is
called; with the right token, and with no configured token, the same request gets past the
token check. -/
theorem token_check_witness :
    nsoService.EditConfig (scenario "secret" 200 "200 OK" "\x7b\x7d")
      { Request := some { Token := "guess" }, Path := "/x", Options := "",
        OperationType := "remove", JsonData := "" } =
      (.ret (none, some (.status .PermissionDenied "invalid token")), []) ∧
    (nsoService.EditConfig (scenario "secret" 200 "200 OK" "\x7b\x7d")
      { Request := some { Token := "secret" }, Path := "/x", Options := "",
        OperationType := "remove", JsonData := "" }).1 ≠
      .ret (none, some (.status .PermissionDenied "invalid token")) ∧
    (nsoService.EditConfig (scenario "" 200 "200 OK" "\x7b\x7d")
      { Request := some { Token := "" }, Path := "/x", Options := "",
        OperationType := "remove", JsonData := "" }).1 ≠
      .ret (none, some (.status .PermissionDenied "invalid token")) :=
  ⟨(token_check (scenario "secret" 200 "200 OK" "\x7b\x7d") { Token := "guess" }
      { Request := none } { Request := none, Path := "/x", Options := "" }
      { Request := none, Path := "/x", Options := "", OperationType := "remove", JsonData := "" }
      { Request := none, JsonQuery := "" }
      { Request := none, Path := "/x", Options := "", JsonData := "" }).2.2.1.1
      ⟨by decide, by decide⟩,
   (token_check (scenario "secret" 200 "200 OK" "\x7b\x7d") { Token := "secret" }
      { Request := none } { Request := none, Path := "/x", Options := "" }
      { Request := none, Path := "/x", Options := "", OperationType := "remove", JsonData := "" }
      { Request := none, JsonQuery := "" }
      { Request := none, Path := "/x", Options := "", JsonData := "" }).2.2.1.2
      (fun h => h.2 rfl) |>.1,
   (token_check (scenario "" 200 "200 OK" "\x7b\x7d") { Token := "" }
      { Request := none } { Request := none, Path := "/x", Options := "" }
      { Request := some { Token := "" }, Path := "/x", Options := "", OperationType := "remove",
        JsonData := "" }
      { Request := none, JsonQuery := "" }
      { Request := none, Path := "/x", Options := "", JsonData := "" }).2.2.2.2.2 rfl
      |>.2.2.1⟩

/-- C10: with a configured token, `isTokenValid` on a request without the token message
panics with a nil dereference, and so does each of the five handlers, before any call: the
request is not answered with the permission-denied error. -/
theorem nil_request_panics (w : World) (gc : service.GetConfigRequest)
    (ec : service.EditConfigRequest) (q : service.QueryRequest)
    (eo : service.ExecOperationRequest) (h : w.TOKEN ≠ "") :
    nsoService.isTokenValid w none = .panic nilDereference ∧
    nsoService.GetDevices w { Request := none } = (.panic nilDereference, []) ∧
    nsoService.GetConfig w { gc with Request := none } = (.panic nilDereference, []) ∧
    nsoService.EditConfig w { ec with Request := none } = (.panic nilDereference, []) ∧
    nsoService.Query w { q with Request := none } = (.panic nilDereference, []) ∧
    nsoService.ExecOperation w { eo with Request := none } = (.panic nilDereference, []) := by
  have hp := isTokenValid_nil w h
  refine ⟨hp, ?_, ?_, ?_, ?_, ?_⟩
  · simp only [nsoService.GetDevices, hp]
  · simp only [nsoService.GetConfig, hp]
  · simp only [nsoService.EditConfig, hp]
  · simp only [nsoService.Query, hp]
  · simp only [nsoService.ExecOperation, hp]

/-- C10 at the token "secret" and a `GetDevices` request without the token message: the
handler panics. -/
theorem nil_request_panics_witness :
    nsoService.GetDevices (scenario "secret" 200 "200 OK" "\x7b\x7d") { Request := none } =
      (.panic "runtime error: invalid memory address or nil pointer dereference", []) :=
  (nil_request_panics (scenario "secret" 200 "200 OK" "\x7b\x7d")
    { Request := none, Path := "", Options := "" }
    { Request := none, Path := "", Options := "", OperationType := "", JsonData := "" }
    { Request := none, JsonQuery := "" }
    { Request := none, Path := "", Options := "", JsonData := "" } (by decide)).2.1

/-- An exchange the controller answers within [200,299] and without an `errors` field
gives the body text and no error. -/
theorem exchangeResult_clean (w : World) (r : NSORestconfController) (method url : String)
    (body : Option String) (resp : HttpResponse) (data : String)
    (hcode : 200 ≤ resp.StatusCode ∧ resp.StatusCode ≤ 299)
    (hclean : w.gjson.Exists (w.gjson.Get data "errors") = false)
    (h : Replies w r method url body resp data) :
    exchangeResult w r method url body = (data, none) := by
  rw [exchangeResult_of_replies w r method url body resp data h]
  unfold dispatchSpec
  have hn : ¬ (resp.StatusCode < 200 ∨ 299 < resp.StatusCode) := by omega
  simp [hn, hclean]

/-- An exchange the controller answers within [200,299] and with an `errors` field gives
the logical error. -/
theorem exchangeResult_errors (w : World) (r : NSORestconfController) (method url : String)
    (body : Option String) (resp : HttpResponse) (data : String)
    (hcode : 200 ≤ resp.StatusCode ∧ resp.StatusCode ≤ 299)
    (herr : w.gjson.Exists (w.gjson.Get data "errors") = true)
    (h : Replies w r method url body resp data) :
    exchangeResult w r method url body =
      ("", some (.errorsNew
        ("Error returned from NSO: " ++ w.gjson.String (w.gjson.Get data "errors")))) := by
  rw [exchangeResult_of_replies w r method url body resp data h]
  unfold dispatchSpec
  have hn : ¬ (resp.StatusCode < 200 ∨ 299 < resp.StatusCode) := by omega
  simp [hn, herr]

/-- C5: when a response has a status code in [200,299] and `gjson` finds an `errors` field
in its body, `makeRequest` returns the empty text and the error "Error returned from NSO:
<content>", where the content is what `String()` gives for the field, so the message
contains it; each of the five client operations whose request is answered with that
response returns the same. -/
theorem logical_error (w : World) (r : NSORestconfController) (resp : HttpResponse)
    (data : String) (failure : ClientResult)
    (hcode : 200 ≤ resp.StatusCode ∧ resp.StatusCode ≤ 299)
    (herr : w.gjson.Exists (w.gjson.Get data "errors") = true)
    (hfailure : failure =
      ("", some (.errorsNew
        ("Error returned from NSO: " ++ w.gjson.String (w.gjson.Get data "errors"))))) :
    Contains ("Error returned from NSO: " ++ w.gjson.String (w.gjson.Get data "errors"))
      (w.gjson.String (w.gjson.Get data "errors")) ∧
    (∀ req, w.http.Do (NSORestconfController.prepareRequest r req) = .ok resp →
      resp.Body = .ok data → (NSORestconfController.makeRequest w r req).1 = failure) ∧
    (Replies w r "GET" (r.Url ++ "/data/tailf-ncs:devices/device?fields=address;name;device-type;authgroup&depth=2") none resp data →
      (NSORestconfController.GetDevices w r).1 = failure) ∧
    (∀ p, Replies w r "GET" (r.Url ++ "/data" ++ p) none resp data →
      (NSORestconfController.GetConfig w r p).1 = failure) ∧
    (∀ p body m, Replies w r m (r.Url ++ "/data" ++ p) (some body) resp data →
      (NSORestconfController.EditConfig w r p body m).1 = failure) ∧
    (∀ body, Replies w r "POST" (r.Url ++ "/tailf/query") (some body) resp data →
      (NSORestconfController.Query w r body).1 = failure) ∧
    (∀ p body, Replies w r "POST" (r.Url ++ "/operations" ++ p) (some body) resp data →
      (NSORestconfController.ExecOperations w r p body).1 = failure) := by
  subst hfailure
  refine ⟨⟨"Error returned from NSO: ", "", by rw [String.append_empty]⟩, ?_, ?_, ?_, ?_, ?_, ?_⟩
  · intro req hdo hbody
    rw [makeRequest_of_response w r req resp data hdo hbody]
    unfold dispatchSpec
    have hn : ¬ (resp.StatusCode < 200 ∨ 299 < resp.StatusCode) := by omega
    simp [hn, herr]
  · intro h
    rw [GetDevices_exchange]
    exact exchangeResult_errors w r _ _ _ resp data hcode herr h
  · intro p h
    rw [GetConfig_exchange]
    rw [String.append_assoc] at h
    exact exchangeResult_errors w r _ _ _ resp data hcode herr h
  · intro p body m h
    rw [EditConfig_exchange]
    rw [String.append_assoc] at h
    exact exchangeResult_errors w r _ _ _ resp data hcode herr h
  · intro body h
    rw [Query_exchange]
    exact exchangeResult_errors w r _ _ _ resp data hcode herr h
  · intro p body h
    rw [ExecOperations_exchange]
    rw [String.append_assoc] at h
    exact exchangeResult_errors w r _ _ _ resp data hcode herr h

/-- C7: for a request that passed the token check (and, for `EditConfig`, has a supported
operation type), when the controller answers the request of the handler with a status code
in [200,299] and a body in which `gjson` finds no `errors` field, the handler returns no
error and the `Result` of its response envelope is the body text itself. -/
theorem raw_body_round_trip (w : World) (resp : HttpResponse) (data : String)
    (hcode : 200 ≤ resp.StatusCode ∧ resp.StatusCode ≤ 299)
    (hclean : w.gjson.Exists (w.gjson.Get data "errors") = false) :
    (∀ req : service.GetConfigRequest, nsoService.isTokenValid w req.Request = .ret true →
      Replies w w.nsoRestconfCtl "GET"
        (w.nsoRestconfCtl.Url ++ "/data" ++ fullPathSpec req.Path req.Options) none resp data →
      (nsoService.GetConfig w req).1 = .ret (some { Response := some { Result := data } }, none)) ∧
    (∀ req : service.QueryRequest, nsoService.isTokenValid w req.Request = .ret true →
      Replies w w.nsoRestconfCtl "POST" (w.nsoRestconfCtl.Url ++ "/tailf/query")
        (some req.JsonQuery) resp data →
      (nsoService.Query w req).1 = .ret (some { Response := some { Result := data } }, none)) ∧
    (∀ req : service.ExecOperationRequest, nsoService.isTokenValid w req.Request = .ret true →
      Replies w w.nsoRestconfCtl "POST"
        (w.nsoRestconfCtl.Url ++ "/operations" ++ fullPathSpec req.Path req.Options)
        (some req.JsonData) resp data →
      (nsoService.ExecOperation w req).1 =
        .ret (some { Response := some { Result := data } }, none)) ∧
    (∀ (req : service.EditConfigRequest) (httpMethod : String),
      nsoService.isTokenValid w req.Request = .ret true →
      (req.OperationType, httpMethod) ∈ operationTypesSpec →
      Replies w w.nsoRestconfCtl httpMethod
        (w.nsoRestconfCtl.Url ++ "/data" ++ fullPathSpec req.Path req.Options)
        (some req.JsonData) resp data →
      (nsoService.EditConfig w req).1 =
        .ret (some { Response := some { Result := data } }, none)) := by
  refine ⟨?_, ?_, ?_, ?_⟩
  · intro req hauth h
    rw [String.append_assoc] at h
    rw [GetConfig_authorized w req hauth, GetConfig_exchange,
      exchangeResult_clean w _ _ _ _ resp data hcode hclean h]
    rfl
  · intro req hauth h
    rw [Query_authorized w req hauth, Query_exchange,
      exchangeResult_clean w _ _ _ _ resp data hcode hclean h]
    rfl
  · intro req hauth h
    rw [String.append_assoc] at h
    rw [ExecOperation_authorized w req hauth, ExecOperations_exchange,
      exchangeResult_clean w _ _ _ _ resp data hcode hclean h]
    rfl
  · intro req httpMethod hauth hop h
    rw [String.append_assoc] at h
    rw [EditConfig_authorized w req hauth httpMethod hop, EditConfig_exchange,
      exchangeResult_clean w _ _ _ _ resp data hcode hclean h]
    rfl

/-- C8: for `GetConfig`, `EditConfig` (with a supported operation type) and
`ExecOperation` requests that passed the token check, the handler is the pass-through of
its client method called with the path of the specification: `request.path` when the
options are empty, else `request.path`, a question mark and `request.options`, with no
character of either changed; the three handlers build it alike, the exchange with the
controller is made on the base URL, the fixed segment and that very path, and this is the
handler's one call of the client. -/
theorem full_path (w : World) (gc : service.GetConfigRequest) (ec : service.EditConfigRequest)
    (eo : service.ExecOperationRequest) :
    (nsoService.isTokenValid w gc.Request = .ret true →
      nsoService.GetConfig w gc =
        passThrough (fun data => ({ Response := some { Result := data } } : service.GetConfigResponse))
          (.GetConfig (fullPathSpec gc.Path gc.Options))
          (NSORestconfController.GetConfig w w.nsoRestconfCtl
            (fullPathSpec gc.Path gc.Options)) ∧
      nsoService.GetConfig w gc =
        passThrough (fun data => ({ Response := some { Result := data } } : service.GetConfigResponse))
          (.GetConfig (fullPathSpec gc.Path gc.Options))
          (exchangeSpec w w.nsoRestconfCtl "GET"
            (w.nsoRestconfCtl.Url ++ "/data" ++ fullPathSpec gc.Path gc.Options) none) ∧
      controllerCalls (nsoService.GetConfig w gc).2 =
        [.GetConfig (fullPathSpec gc.Path gc.Options)]) ∧
    (nsoService.isTokenValid w ec.Request = .ret true →
      ∀ httpMethod, (ec.OperationType, httpMethod) ∈ operationTypesSpec →
        nsoService.EditConfig w ec =
          passThrough (fun data => ({ Response := some { Result := data } } : service.EditConfigResponse))
            (.EditConfig (fullPathSpec ec.Path ec.Options) ec.JsonData httpMethod)
            (NSORestconfController.EditConfig w w.nsoRestconfCtl
              (fullPathSpec ec.Path ec.Options) ec.JsonData httpMethod) ∧
        nsoService.EditConfig w ec =
          passThrough (fun data => ({ Response := some { Result := data } } : service.EditConfigResponse))
            (.EditConfig (fullPathSpec ec.Path ec.Options) ec.JsonData httpMethod)
            (exchangeSpec w w.nsoRestconfCtl httpMethod
              (w.nsoRestconfCtl.Url ++ "/data" ++ fullPathSpec ec.Path ec.Options)
              (some ec.JsonData)) ∧
        controllerCalls (nsoService.EditConfig w ec).2 =
          [.EditConfig (fullPathSpec ec.Path ec.Options) ec.JsonData httpMethod]) ∧
    (nsoService.isTokenValid w eo.Request = .ret true →
      nsoService.ExecOperation w eo =
        passThrough (fun data => ({ Response := some { Result := data } } : service.ExecOperationResponse))
          (.ExecOperations (fullPathSpec eo.Path eo.Options) eo.JsonData)
          (NSORestconfController.ExecOperations w w.nsoRestconfCtl
            (fullPathSpec eo.Path eo.Options) eo.JsonData) ∧
      nsoService.ExecOperation w eo =
        passThrough (fun data => ({ Response := some { Result := data } } : service.ExecOperationResponse))
          (.ExecOperations (fullPathSpec eo.Path eo.Options) eo.JsonData)
          (exchangeSpec w w.nsoRestconfCtl "POST"
            (w.nsoRestconfCtl.Url ++ "/operations" ++ fullPathSpec eo.Path eo.Options)
            (some eo.JsonData)) ∧
      controllerCalls (nsoService.ExecOperation w eo).2 =
        [.ExecOperations (fullPathSpec eo.Path eo.Options) eo.JsonData]) ∧
    (∀ path : String, fullPathSpec path "" = path) ∧
    (∀ path options : String, options ≠ "" →
      fullPathSpec path options = path ++ "?" ++ options) := by
  refine ⟨?_, ?_, ?_, ?_, ?_⟩
  · intro hauth
    have hcall := GetConfig_authorized w gc hauth
    have hexchange := (GetConfig_exchange w w.nsoRestconfCtl
      (fullPathSpec gc.Path gc.Options)).trans (exchange_spec w w.nsoRestconfCtl _ _ _)
    rw [← String.append_assoc] at hexchange
    refine ⟨hcall, ?_, ?_⟩
    · rw [hcall, hexchange]
      rfl
    · rw [hcall, GetConfig_exchange]
      exact controllerCalls_call _ _ _ _ _ _
  · intro hauth httpMethod hop
    have hcall := EditConfig_authorized w ec hauth httpMethod hop
    have hexchange := (EditConfig_exchange w w.nsoRestconfCtl
      (fullPathSpec ec.Path ec.Options) ec.JsonData httpMethod).trans
      (exchange_spec w w.nsoRestconfCtl _ _ _)
    rw [← String.append_assoc] at hexchange
    refine ⟨hcall, ?_, ?_⟩
    · rw [hcall, hexchange]
      rfl
    · rw [hcall, EditConfig_exchange]
      exact controllerCalls_call _ _ _ _ _ _
  · intro hauth
    have hcall := ExecOperation_authorized w eo hauth
    have hexchange := (ExecOperations_exchange w w.nsoRestconfCtl
      (fullPathSpec eo.Path eo.Options) eo.JsonData).trans
      (exchange_spec w w.nsoRestconfCtl _ _ _)
    rw [← String.append_assoc] at hexchange
    refine ⟨hcall, ?_, ?_⟩
    · rw [hcall, hexchange]
      rfl
    · rw [hcall, ExecOperations_exchange]
      exact controllerCalls_call _ _ _ _ _ _
  · intro path
    simp [fullPathSpec]
  · intro path options h
    simp [fullPathSpec, h]

/-! ## The device list -/

/-- The handler `GetDevices` on a device list the controller delivers: one record per
element of the array, in order. -/
theorem GetDevices_delivered (w : World) (req : service.GetDevicesRequest)
    (resp : HttpResponse) (data : String)
    (hauth : nsoService.isTokenValid w req.Request = .ret true)
    (hreply : Replies w w.nsoRestconfCtl "GET" (w.nsoRestconfCtl.Url ++ "/data/tailf-ncs:devices/device?fields=address;name;device-type;authgroup&depth=2")
      none resp data)
    (hcode : 200 ≤ resp.StatusCode ∧ resp.StatusCode ≤ 299)
    (hclean : w.gjson.Exists (w.gjson.Get data "errors") = false) :
    (nsoService.GetDevices w req).1 =
      .ret (some (service.GetDevicesResponse.mk (List.map (nsoService.deviceOf w.gjson)
        (w.gjson.Array (w.gjson.Get data "tailf-ncs:device")))), none) := by
  rw [GetDevices_authorized w req hauth, GetDevices_exchange,
    exchangeResult_clean w _ _ _ _ resp data hcode hclean hreply]
  rfl

/-- The device type of the specification is absent exactly when none of the three variants
exists. -/
theorem deviceTypeSpec_none_iff (g : Gjson) (raw : String) :
    deviceTypeSpec g raw = none ↔
      (g.Exists (g.Get raw "device-type.cli") = false ∧
       g.Exists (g.Get raw "device-type.netconf") = false ∧
       g.Exists (g.Get raw "device-type.generic") = false) := by
  unfold deviceTypeSpec
  cases g.Exists (g.Get raw "device-type.cli") <;>
  cases g.Exists (g.Get raw "device-type.netconf") <;>
  cases g.Exists (g.Get raw "device-type.generic") <;> simp

/-- C3: when the controller delivers a device list, `GetDevices` returns one record per
element of the array under `tailf-ncs:device`, and the record of an element has: the type
"cli" with the ned-id under `device-type.cli` if `device-type.cli` exists; else the type
"netconf" with the ned-id under `device-type.netconf` if that exists; else the type
"generic" with the ned-id under `device-type.generic` if that exists; and no type (nil) if
and only if none of the three exists.  A record has the one field `Type`, so the first
variant that exists is the only one it carries. -/
theorem device_type_priority (w : World) (req : service.GetDevicesRequest)
    (resp : HttpResponse) (data : String)
    (hauth : nsoService.isTokenValid w req.Request = .ret true)
    (hreply : Replies w w.nsoRestconfCtl "GET" (w.nsoRestconfCtl.Url ++ "/data/tailf-ncs:devices/device?fields=address;name;device-type;authgroup&depth=2")
      none resp data)
    (hcode : 200 ≤ resp.StatusCode ∧ resp.StatusCode ≤ 299)
    (hclean : w.gjson.Exists (w.gjson.Get data "errors") = false) :
    ∃ devices : List service.Device,
      (nsoService.GetDevices w req).1 = .ret (some { Devices := devices }, none) ∧
      List.Forall₂
        (fun element device =>
          (w.gjson.Exists (w.gjson.Get (w.gjson.Raw element) "device-type.cli") = true →
            device.Type_ = some
              { NedType := "cli",
                NedId := w.gjson.String
                  (w.gjson.Get (w.gjson.Raw element) "device-type.cli.ned-id") }) ∧
          (w.gjson.Exists (w.gjson.Get (w.gjson.Raw element) "device-type.cli") = false →
            w.gjson.Exists (w.gjson.Get (w.gjson.Raw element) "device-type.netconf") = true →
            device.Type_ = some
              { NedType := "netconf",
                NedId := w.gjson.String
                  (w.gjson.Get (w.gjson.Raw element) "device-type.netconf.ned-id") }) ∧
          (w.gjson.Exists (w.gjson.Get (w.gjson.Raw element) "device-type.cli") = false →
            w.gjson.Exists (w.gjson.Get (w.gjson.Raw element) "device-type.netconf") = false →
            w.gjson.Exists (w.gjson.Get (w.gjson.Raw element) "device-type.generic") = true →
            device.Type_ = some
              { NedType := "generic",
                NedId := w.gjson.String
                  (w.gjson.Get (w.gjson.Raw element) "device-type.generic.ned-id") }) ∧
          (device.Type_ = none ↔
            (w.gjson.Exists (w.gjson.Get (w.gjson.Raw element) "device-type.cli") = false ∧
             w.gjson.Exists (w.gjson.Get (w.gjson.Raw element) "device-type.netconf") = false ∧
             w.gjson.Exists (w.gjson.Get (w.gjson.Raw element) "device-type.generic") = false)))
        (w.gjson.Array (w.gjson.Get data "tailf-ncs:device")) devices := by
  refine ⟨_, GetDevices_delivered w req resp data hauth hreply hcode hclean, ?_⟩
  rw [List.forall₂_map_right_iff, List.forall₂_same]
  intro element _
  have htype : (nsoService.deviceOf w.gjson element).Type_ =
      deviceTypeSpec w.gjson (w.gjson.Raw element) := scanAllowedTypes_eq _ _
  rw [htype]
  refine ⟨?_, ?_, ?_, deviceTypeSpec_none_iff _ _⟩
  · intro h1
    simp [deviceTypeSpec, h1]
  · intro h1 h2
    simp [deviceTypeSpec, h1, h2]
  · intro h1 h2 h3
    simp [deviceTypeSpec, h1, h2, h3]

/-- C4: when the controller delivers a device list whose `tailf-ncs:device` lookup has n
array elements, `GetDevices` returns no error and exactly n records, the i-th with the
name, address and authgroup of the i-th element, in the order of the array; when the
lookup has no elements (an empty array, a missing key) the list of records is empty. -/
theorem devices_in_order (w : World) (req : service.GetDevicesRequest)
    (resp : HttpResponse) (data : String)
    (hauth : nsoService.isTokenValid w req.Request = .ret true)
    (hreply : Replies w w.nsoRestconfCtl "GET" (w.nsoRestconfCtl.Url ++ "/data/tailf-ncs:devices/device?fields=address;name;device-type;authgroup&depth=2")
      none resp data)
    (hcode : 200 ≤ resp.StatusCode ∧ resp.StatusCode ≤ 299)
    (hclean : w.gjson.Exists (w.gjson.Get data "errors") = false) :
    ∃ devices : List service.Device,
      (nsoService.GetDevices w req).1 = .ret (some { Devices := devices }, none) ∧
      devices.length = (w.gjson.Array (w.gjson.Get data "tailf-ncs:device")).length ∧
      devices.map (fun device => (device.Name, device.Address, device.Authgroup)) =
        (w.gjson.Array (w.gjson.Get data "tailf-ncs:device")).map
          (fun element =>
            (w.gjson.String (w.gjson.Get (w.gjson.Raw element) "name"),
             w.gjson.String (w.gjson.Get (w.gjson.Raw element) "address"),
             w.gjson.String (w.gjson.Get (w.gjson.Raw element) "authgroup"))) ∧
      (w.gjson.Array (w.gjson.Get data "tailf-ncs:device") = [] → devices = []) := by
  refine ⟨_, GetDevices_delivered w req resp data hauth hreply hcode hclean, ?_, ?_, ?_⟩
  · simp
  · rw [List.map_map]
    rfl
  · intro h
    simp [h]

/-! ## Scenarios of the device list and of the client -/

set_option maxRecDepth 100000 in
/-- C3 at a device list whose first element has `netconf` and `cli` at once, whose second
has `generic` and `netconf` at once and whose third has no `device-type`: the records are
typed "cli", "netconf" and not at all. -/
theorem device_type_priority_witness :
    ∃ devices : List service.Device,
      (nsoService.GetDevices (scenario "" 200 "200 OK" mixedDevicesBody) { Request := none }).1 =
        .ret (some { Devices := devices }, none) ∧
      devices.map (fun device => device.Type_) =
        [some { NedType := "cli", NedId := "ios" },
         some { NedType := "netconf", NedId := "nc" }, none] := by
  obtain ⟨devices, hresult, _⟩ :=
    device_type_priority (scenario "" 200 "200 OK" mixedDevicesBody) { Request := none }
      (scenarioResponse 200 "200 OK" mixedDevicesBody) mixedDevicesBody rfl
      ⟨_, rfl, rfl, rfl⟩ (by decide) rfl
  refine ⟨devices, hresult, ?_⟩
  have heval :
      (nsoService.GetDevices (scenario "" 200 "200 OK" mixedDevicesBody) { Request := none }).1 =
        .ret (some { Devices :=
          [{ Name := "a", Address := "10.0.0.1", Authgroup := "g",
             Type_ := some { NedType := "cli", NedId := "ios" } },
           { Name := "b", Address := "10.0.0.2", Authgroup := "g",
             Type_ := some { NedType := "netconf", NedId := "nc" } },
           { Name := "c", Address := "10.0.0.3", Authgroup := "g", Type_ := none }] }, none) := by
    rfl
  rw [heval] at hresult
  simp only [Go.ret.injEq, Prod.mk.injEq, Option.some.injEq, and_true,
    service.GetDevicesResponse.mk.injEq] at hresult
  rw [← hresult]
  rfl

set_option maxRecDepth 100000 in
/-- C4 at the device list of two elements, a `cli` device with ned-id "cisco-ios-cli-3.0"
and then a `netconf` device with ned-id "cisco-nx-netconf": two records in that order with
these types; and at the bodies `{"tailf-ncs:device":[]}` and `{}`: an empty list and no
error. -/
theorem devices_in_order_witness :
    (∃ devices : List service.Device,
      (nsoService.GetDevices (scenario "" 200 "200 OK" twoDevicesBody) { Request := none }).1 =
        .ret (some { Devices := devices }, none) ∧
      devices =
        [{ Name := "ios0", Address := "10.0.0.1", Authgroup := "default",
           Type_ := some { NedType := "cli", NedId := "cisco-ios-cli-3.0" } },
         { Name := "nx0", Address := "10.0.0.2", Authgroup := "lab",
           Type_ := some { NedType := "netconf", NedId := "cisco-nx-netconf" } }]) ∧
    (∃ devices : List service.Device,
      (nsoService.GetDevices (scenario "" 200 "200 OK" "\x7b\"tailf-ncs:device\":[]\x7d")
        { Request := none }).1 = .ret (some { Devices := devices }, none) ∧ devices = []) ∧
    (∃ devices : List service.Device,
      (nsoService.GetDevices (scenario "" 200 "200 OK" "\x7b\x7d")
        { Request := none }).1 = .ret (some { Devices := devices }, none) ∧ devices = []) := by
  refine ⟨?_, ?_, ?_⟩
  · obtain ⟨devices, hresult, _, _, _⟩ :=
      devices_in_order (scenario "" 200 "200 OK" twoDevicesBody) { Request := none }
        (scenarioResponse 200 "200 OK" twoDevicesBody) twoDevicesBody rfl
        ⟨_, rfl, rfl, rfl⟩ (by decide) rfl
    refine ⟨devices, hresult, ?_⟩
    have heval :
        (nsoService.GetDevices (scenario "" 200 "200 OK" twoDevicesBody) { Request := none }).1 =
          .ret (some { Devices :=
            [{ Name := "ios0", Address := "10.0.0.1", Authgroup := "default",
               Type_ := some { NedType := "cli", NedId := "cisco-ios-cli-3.0" } },
             { Name := "nx0", Address := "10.0.0.2", Authgroup := "lab",
               Type_ := some { NedType := "netconf", NedId := "cisco-nx-netconf" } }] },
            none) := by
      rfl
    rw [heval] at hresult
    simp only [Go.ret.injEq, Prod.mk.injEq, Option.some.injEq, and_true,
      service.GetDevicesResponse.mk.injEq] at hresult
    exact hresult.symm
  · obtain ⟨devices, hresult, _, _, hempty⟩ :=
      devices_in_order (scenario "" 200 "200 OK" "\x7b\"tailf-ncs:device\":[]\x7d")
        { Request := none }
        (scenarioResponse 200 "200 OK" "\x7b\"tailf-ncs:device\":[]\x7d")
        "\x7b\"tailf-ncs:device\":[]\x7d" rfl ⟨_, rfl, rfl, rfl⟩ (by decide) rfl
    exact ⟨devices, hresult, hempty rfl⟩
  · obtain ⟨devices, hresult, _, _, hempty⟩ :=
      devices_in_order (scenario "" 200 "200 OK" "\x7b\x7d") { Request := none }
        (scenarioResponse 200 "200 OK" "\x7b\x7d") "\x7b\x7d" rfl ⟨_, rfl, rfl, rfl⟩
        (by decide) rfl
    exact ⟨devices, hresult, hempty rfl⟩

set_option maxRecDepth 100000 in
/-- C5 at the status 200 and the body `{"errors":{"error":[{"error-message":"bad path"}]}}`:
`makeRequest` and each of the five client operations fail with the empty text and a message
that contains "bad path". -/
theorem logical_error_witness :
    Contains "Error returned from NSO: \x7b\"error\":[\x7b\"error-message\":\"bad path\"\x7d]\x7d" "bad path" ∧
    (NSORestconfController.makeRequest (scenario "" 200 "200 OK" badPathBody) labController
      sampleRequest).1 = ("", some (.errorsNew "Error returned from NSO: \x7b\"error\":[\x7b\"error-message\":\"bad path\"\x7d]\x7d")) ∧
    (NSORestconfController.GetDevices (scenario "" 200 "200 OK" badPathBody) labController).1 =
      ("", some (.errorsNew "Error returned from NSO: \x7b\"error\":[\x7b\"error-message\":\"bad path\"\x7d]\x7d")) ∧
    (NSORestconfController.GetConfig (scenario "" 200 "200 OK" badPathBody) labController
      "/tailf-ncs:devices").1 = ("", some (.errorsNew "Error returned from NSO: \x7b\"error\":[\x7b\"error-message\":\"bad path\"\x7d]\x7d")) ∧
    (NSORestconfController.EditConfig (scenario "" 200 "200 OK" badPathBody) labController
      "/tailf-ncs:devices" "\x7b\x7d" "PATCH").1 = ("", some (.errorsNew "Error returned from NSO: \x7b\"error\":[\x7b\"error-message\":\"bad path\"\x7d]\x7d")) ∧
    (NSORestconfController.Query (scenario "" 200 "200 OK" badPathBody) labController
      "\x7b\x7d").1 = ("", some (.errorsNew "Error returned from NSO: \x7b\"error\":[\x7b\"error-message\":\"bad path\"\x7d]\x7d")) ∧
    (NSORestconfController.ExecOperations (scenario "" 200 "200 OK" badPathBody) labController
      "/devices/sync-from" "").1 = ("", some (.errorsNew "Error returned from NSO: \x7b\"error\":[\x7b\"error-message\":\"bad path\"\x7d]\x7d")) :=
  ⟨⟨"Error returned from NSO: \x7b\"error\":[\x7b\"error-message\":\"",
      "\"\x7d]\x7d", by decide⟩,
   (logical_error (scenario "" 200 "200 OK" badPathBody) labController
      (scenarioResponse 200 "200 OK" badPathBody) badPathBody _ (by decide) rfl rfl).2.1 sampleRequest rfl rfl,
   (logical_error (scenario "" 200 "200 OK" badPathBody) labController
      (scenarioResponse 200 "200 OK" badPathBody) badPathBody _ (by decide) rfl rfl).2.2.1 ⟨_, rfl, rfl, rfl⟩,
   (logical_error (scenario "" 200 "200 OK" badPathBody) labController
      (scenarioResponse 200 "200 OK" badPathBody) badPathBody _ (by decide) rfl rfl).2.2.2.1 "/tailf-ncs:devices" ⟨_, rfl, rfl, rfl⟩,
   (logical_error (scenario "" 200 "200 OK" badPathBody) labController
      (scenarioResponse 200 "200 OK" badPathBody) badPathBody _ (by decide) rfl rfl).2.2.2.2.1 "/tailf-ncs:devices" "\x7b\x7d" "PATCH" ⟨_, rfl, rfl, rfl⟩,
   (logical_error (scenario "" 200 "200 OK" badPathBody) labController
      (scenarioResponse 200 "200 OK" badPathBody) badPathBody _ (by decide) rfl rfl).2.2.2.2.2.1 "\x7b\x7d" ⟨_, rfl, rfl, rfl⟩,
   (logical_error (scenario "" 200 "200 OK" badPathBody) labController
      (scenarioResponse 200 "200 OK" badPathBody) badPathBody _ (by decide) rfl rfl).2.2.2.2.2.2 "/devices/sync-from" "" ⟨_, rfl, rfl, rfl⟩⟩

set_option maxRecDepth 100000 in
/-- C6 at the boundaries: the status codes 199 and 300 are HTTP errors that carry the
status line and the body, also when the body has an `errors` field; 200 and 299 are not,
and a body without `errors` comes back as it is. -/
theorem makeRequest_http_status_witness :
    (NSORestconfController.makeRequest (scenario "" 199 "199 Early" badPathBody) labController
      sampleRequest).1 =
      ("", some (.errorsNew ("Status 199 Early returned from NSO: " ++ badPathBody))) ∧
    (NSORestconfController.makeRequest (scenario "" 300 "300 Multiple Choices" badPathBody)
      labController sampleRequest).1 =
      ("", some (.errorsNew ("Status 300 Multiple Choices returned from NSO: " ++ badPathBody))) ∧
    (NSORestconfController.makeRequest (scenario "" 200 "200 OK" "[]") labController
      sampleRequest).1 = ("[]", none) ∧
    (NSORestconfController.makeRequest (scenario "" 299 "299 Late" "[]") labController
      sampleRequest).1 = ("[]", none) :=
  ⟨(makeRequest_http_status (scenario "" 199 "199 Early" badPathBody) labController
      sampleRequest (scenarioResponse 199 "199 Early" badPathBody) badPathBody rfl rfl).1
      (by decide),
   (makeRequest_http_status (scenario "" 300 "300 Multiple Choices" badPathBody) labController
      sampleRequest (scenarioResponse 300 "300 Multiple Choices" badPathBody) badPathBody
      rfl rfl).1 (by decide),
   (makeRequest_http_status (scenario "" 200 "200 OK" "[]") labController
      sampleRequest (scenarioResponse 200 "200 OK" "[]") "[]" rfl rfl).2 (by decide),
   (makeRequest_http_status (scenario "" 299 "299 Late" "[]") labController
      sampleRequest (scenarioResponse 299 "299 Late" "[]") "[]" rfl rfl).2 (by decide)⟩

set_option maxRecDepth 100000 in
/-- C7 at a body with blanks around it: `GetConfig`, `Query`, `ExecOperation` and a
"merge" `EditConfig` return it unchanged in the envelope. -/
theorem raw_body_round_trip_witness :
    (nsoService.GetConfig (scenario "" 200 "200 OK" " \x7b\"a\": [1, 2]\x7d\n")
      { Request := none, Path := "/tailf-ncs:devices", Options := "depth=1" }).1 =
      .ret (some { Response := some { Result := " \x7b\"a\": [1, 2]\x7d\n" } }, none) ∧
    (nsoService.Query (scenario "" 200 "200 OK" " \x7b\"a\": [1, 2]\x7d\n")
      { Request := none, JsonQuery := "\x7b\x7d" }).1 =
      .ret (some { Response := some { Result := " \x7b\"a\": [1, 2]\x7d\n" } }, none) ∧
    (nsoService.ExecOperation (scenario "" 200 "200 OK" " \x7b\"a\": [1, 2]\x7d\n")
      { Request := none, Path := "/devices/sync-from", Options := "", JsonData := "" }).1 =
      .ret (some { Response := some { Result := " \x7b\"a\": [1, 2]\x7d\n" } }, none) ∧
    (nsoService.EditConfig (scenario "" 200 "200 OK" " \x7b\"a\": [1, 2]\x7d\n")
      { Request := none, Path := "/tailf-ncs:devices", Options := "", OperationType := "merge",
        JsonData := "\x7b\x7d" }).1 =
      .ret (some { Response := some { Result := " \x7b\"a\": [1, 2]\x7d\n" } }, none) :=
  ⟨(raw_body_round_trip (scenario "" 200 "200 OK" " \x7b\"a\": [1, 2]\x7d\n")
      (scenarioResponse 200 "200 OK" " \x7b\"a\": [1, 2]\x7d\n") " \x7b\"a\": [1, 2]\x7d\n"
      (by decide) rfl).1
      { Request := none, Path := "/tailf-ncs:devices", Options := "depth=1" } rfl
      ⟨_, rfl, rfl, rfl⟩,
   (raw_body_round_trip (scenario "" 200 "200 OK" " \x7b\"a\": [1, 2]\x7d\n")
      (scenarioResponse 200 "200 OK" " \x7b\"a\": [1, 2]\x7d\n") " \x7b\"a\": [1, 2]\x7d\n"
      (by decide) rfl).2.1
      { Request := none, JsonQuery := "\x7b\x7d" } rfl ⟨_, rfl, rfl, rfl⟩,
   (raw_body_round_trip (scenario "" 200 "200 OK" " \x7b\"a\": [1, 2]\x7d\n")
      (scenarioResponse 200 "200 OK" " \x7b\"a\": [1, 2]\x7d\n") " \x7b\"a\": [1, 2]\x7d\n"
      (by decide) rfl).2.2.1
      { Request := none, Path := "/devices/sync-from", Options := "", JsonData := "" } rfl
      ⟨_, rfl, rfl, rfl⟩,
   (raw_body_round_trip (scenario "" 200 "200 OK" " \x7b\"a\": [1, 2]\x7d\n")
      (scenarioResponse 200 "200 OK" " \x7b\"a\": [1, 2]\x7d\n") " \x7b\"a\": [1, 2]\x7d\n"
      (by decide) rfl).2.2.2
      { Request := none, Path := "/tailf-ncs:devices", Options := "", OperationType := "merge",
        JsonData := "\x7b\x7d" } "PATCH" rfl (by decide) ⟨_, rfl, rfl, rfl⟩⟩

set_option maxRecDepth 100000 in
/-- C8 at requests sent to a controller that echoes the request it gets: a path and options
that both hold a question mark arrive as their plain concatenation, a path with a blank and
empty options as the path alone, and options with a percent sign unchanged. -/
theorem full_path_witness :
    (nsoService.GetConfig echoScenario
      { Request := none, Path := "/a?x=1", Options := "depth=2&y=?" }).1 =
      .ret (some { Response := some (service.Response.mk
        "GET https://nso.lab:8888/restconf/data/a?x=1?depth=2&y=? (no body)") }, none) ∧
    (nsoService.EditConfig echoScenario
      { Request := none, Path := "/a b", Options := "", OperationType := "delete",
        JsonData := "" }).1 =
      .ret (some { Response := some (service.Response.mk
        "DELETE https://nso.lab:8888/restconf/data/a b ") }, none) ∧
    (nsoService.ExecOperation echoScenario
      { Request := none, Path := "/op", Options := "%20", JsonData := "" }).1 =
      .ret (some { Response := some (service.Response.mk
        "POST https://nso.lab:8888/restconf/operations/op?%20 ") }, none) :=
  ⟨congrArg Prod.fst ((full_path echoScenario
      { Request := none, Path := "/a?x=1", Options := "depth=2&y=?" }
      { Request := none, Path := "/a b", Options := "", OperationType := "delete",
        JsonData := "" }
      { Request := none, Path := "/op", Options := "%20", JsonData := "" }).1 rfl).2.1,
   congrArg Prod.fst ((full_path echoScenario
      { Request := none, Path := "/a?x=1", Options := "depth=2&y=?" }
      { Request := none, Path := "/a b", Options := "", OperationType := "delete",
        JsonData := "" }
      { Request := none, Path := "/op", Options := "%20", JsonData := "" }).2.1 rfl
      "DELETE" (by decide)).2.1,
   congrArg Prod.fst ((full_path echoScenario
      { Request := none, Path := "/a?x=1", Options := "depth=2&y=?" }
      { Request := none, Path := "/a b", Options := "", OperationType := "delete",
        JsonData := "" }
      { Request := none, Path := "/op", Options := "%20", JsonData := "" }).2.2.1 rfl).2.1⟩

end Gnso
